import Mathlib

/-!
Verification of the rose-file-lib binary codec layer (rose-gltf repository).

This file shallowly embeds the scalar/string I/O primitives
(`src/rose-file-lib/src/io/reader.rs`, `writer.rs`), the two-pass tabular
codec (`files/stb.rs`), the property-stream model codec and its text twin
(`files/zsc.rs`), and the key ordering of the multi-language string table
writer (`files/stl.rs`), and proves or refutes the frozen claims about them.

Modelling conventions:

* A Rust `String` is identified with its UTF-8 byte sequence, embedded as
  `List Nat` with entries below 256.  The charset layer of `decode_string`
  (UTF-8 with EUC-KR fallback; reader.rs:389) is the identity on the byte
  level for valid UTF-8 input, which every Rust `String` is by construction,
  so at this granularity decoding a string's own bytes is the identity and
  the EUC-KR fallback is unreachable.  The process-wide wide-string toggle is
  never set by the three codecs under study and is modelled as off.
* Machine integers are `Nat` (or `Int` for the signed reads) with explicit
  `% 2^w` reductions where the source truncates.
* `f32` values are embedded as their 32-bit patterns (a `Nat`): the codecs
  only copy floats, so bit patterns are exact; the few float *comparisons*
  in the writers are translated at the bit level where this is exact
  (`x != 0.0` holds iff the pattern is not one of the two zeros,
  `x != 1.0` iff the pattern is not 0x3F800000).
* Rust panics (slice index out of bounds, `unwrap` on `None`) are embedded
  as `Except.error Err.panic`, distinct from the `Result` errors of the
  source (`Err.generic`/`Err.ioError`).
-/

namespace RoseLib

/-- A Rust `String`, identified with its UTF-8 byte sequence (entries < 256). -/
abbrev Str := List Nat

/-- The UTF-8 bytes of an ASCII Lean string literal; used to embed the ASCII
string literals of the source at the byte level. -/
def ascii (s : String) : Str := s.data.map Char.toNat

/-- Error kinds: `ioError` for reads past end of stream (the `byteorder` /
`io::Read` failures), `generic` for `RoseLibError::Generic`, and `panic` for
Rust panics (out-of-bounds indexing, `unwrap`). -/
inductive Err where
  | ioError : Err
  | generic : String → Err
  | panic : Err
  deriving DecidableEq

/-- Decidable equality of `Except` results, used to evaluate the codecs on
concrete inputs. -/
instance {e a : Type} [DecidableEq e] [DecidableEq a] : DecidableEq (Except e a) :=
  fun x y =>
    match x, y with
    | .ok u, .ok v =>
      if h : u = v then isTrue (by rw [h])
      else isFalse (fun hh => h (by injection hh))
    | .error u, .error v =>
      if h : u = v then isTrue (by rw [h])
      else isFalse (fun hh => h (by injection hh))
    | .ok _, .error _ => isFalse (fun hh => Except.noConfusion hh)
    | .error _, .ok _ => isFalse (fun hh => Except.noConfusion hh)

/-! ## Reader primitives (io/reader.rs)

A reader is a byte buffer plus a cursor position; every primitive returns the
value read and the advanced reader, or an error. -/

/-- Reader state: the whole underlying buffer and the cursor position. -/
structure RState where
  data : List Nat
  pos : Nat
  deriving DecidableEq

/-- `read_u8`: one byte; fails past end of stream. -/
def rU8 (st : RState) : Except Err (Nat × RState) :=
  match st.data.get? st.pos with
  | some b => .ok (b, ⟨st.data, st.pos + 1⟩)
  | none => .error .ioError

/-- `read_u16`: two bytes, little endian. -/
def rU16 (st : RState) : Except Err (Nat × RState) := do
  let (b0, st) ← rU8 st
  let (b1, st) ← rU8 st
  pure (b0 + 256 * b1, st)

/-- `read_u32`: four bytes, little endian. -/
def rU32 (st : RState) : Except Err (Nat × RState) := do
  let (b0, st) ← rU8 st
  let (b1, st) ← rU8 st
  let (b2, st) ← rU8 st
  let (b3, st) ← rU8 st
  pure (b0 + 256 * b1 + 65536 * b2 + 16777216 * b3, st)

/-- `read_i16`: two's complement decode of `read_u16`. -/
def rI16 (st : RState) : Except Err (Int × RState) := do
  let (n, st) ← rU16 st
  pure (if n < 32768 then (n : Int) else (n : Int) - 65536, st)

/-- `read_i32`: two's complement decode of `read_u32`. -/
def rI32 (st : RState) : Except Err (Int × RState) := do
  let (n, st) ← rU32 st
  pure (if n < 2147483648 then (n : Int) else (n : Int) - 4294967296, st)

/-- `read_bool16`: a u16, true iff nonzero. -/
def rBool16 (st : RState) : Except Err (Bool × RState) := do
  let (n, st) ← rU16 st
  pure (decide (n ≠ 0), st)

/-- `read_f32`: the 32-bit pattern of the float, little endian. -/
def rF32 (st : RState) : Except Err (Nat × RState) := rU32 st

/-- `read_string(n)` (reader.rs:202): take up to `n` bytes (short reads at end
of stream are not an error), remove at most one terminating 0x00 byte, and
decode (identity at the byte level).  The cursor advances by the number of
bytes actually taken, before the null strip. -/
def rString (n : Nat) (st : RState) : Except Err (Str × RState) :=
  let payload := (st.data.drop st.pos).take n
  let s := if payload.getLast? = some 0 then payload.dropLast else payload
  .ok (s, ⟨st.data, st.pos + payload.length⟩)

/-- `read_string_u8`. -/
def rStringU8 (st : RState) : Except Err (Str × RState) := do
  let (n, st) ← rU8 st
  rString n st

/-- `read_string_u16`. -/
def rStringU16 (st : RState) : Except Err (Str × RState) := do
  let (n, st) ← rU16 st
  rString n st

/-- `read_string_u32`. -/
def rStringU32 (st : RState) : Except Err (Str × RState) := do
  let (n, st) ← rU32 st
  rString n st

/-- `read_string_varbyte` (reader.rs:233): if the first byte has the
continuation bit clear it is the length; otherwise the length is
`second << 7 | (first - 128)`. -/
def rStringVarbyte (st : RState) : Except Err (Str × RState) := do
  let (first, st) ← rU8 st
  if first < 128 then
    rString first st
  else do
    let (second, st) ← rU8 st
    rString (second * 128 + (first - 128)) st

/-- `read_cstring` (reader.rs:195): `read_until 0x00` then pop the last byte
of the buffer.  When the terminator is found the popped byte is the
terminator; at end of stream the last content byte is popped instead. -/
def rCString (st : RState) : Except Err (Str × RState) :=
  let rest := st.data.drop st.pos
  let content := rest.takeWhile (fun b => decide (b ≠ 0))
  if content.length < rest.length then
    .ok (content, ⟨st.data, st.pos + content.length + 1⟩)
  else
    .ok (content.dropLast, ⟨st.data, st.pos + rest.length⟩)

/-- `seek(SeekFrom::Start n)`. -/
def rSeekStart (n : Nat) (st : RState) : RState := ⟨st.data, n⟩

/-- `seek(SeekFrom::Current k)` for the non-negative distances the source
uses (a dummy-point property's declared u8 size). -/
def rSeekCur (k : Nat) (st : RState) : RState := ⟨st.data, st.pos + k⟩

/-- Run `f` `n` times, collecting the results (the counted `for` loops of the
readers). -/
def rLoop {α : Type} (n : Nat) (f : RState → Except Err (α × RState))
    (st : RState) : Except Err (List α × RState) :=
  match n with
  | 0 => .ok ([], st)
  | n + 1 => do
    let (x, st) ← f st
    let (xs, st) ← rLoop n f st
    pure (x :: xs, st)

/-! ## Writer primitives (io/writer.rs)

The append-only writers (ZSC binary and text) are embedded as pure functions
producing byte lists; the seek-and-patch writer (STB) additionally uses an
explicit buffer-plus-position state below. -/

/-- Little-endian bytes of a u16 (`write_u16`). -/
def encU16 (n : Nat) : List Nat := [n % 256, n / 256 % 256]

/-- Little-endian bytes of a u32 (`write_u32`). -/
def encU32 (n : Nat) : List Nat :=
  [n % 256, n / 256 % 256, n / 65536 % 256, n / 16777216 % 256]

/-- `write_i16`: two's complement. -/
def encI16 (i : Int) : List Nat := encU16 (i % 65536).toNat

/-- `write_i32`: two's complement. -/
def encI32 (i : Int) : List Nat := encU32 (i % 4294967296).toNat

/-- `write_bool16`. -/
def encBool16 (b : Bool) : List Nat := encU16 (if b then 1 else 0)

/-- `write_f32`: the stored 32-bit pattern, little endian. -/
def encF32 (bits : Nat) : List Nat := encU32 bits

/-- `write_cstring`: the bytes plus a null terminator. -/
def encCString (s : Str) : List Nat := s ++ [0]

/-- `write_string_u16`: u16 length (truncated mod 2^16) then the bytes. -/
def encStringU16 (s : Str) : List Nat := encU16 s.length ++ s

/-- `write_string(s, len)` (writer.rs:188): the first `min len |s|` bytes,
zero-padded up to `len`.  The source takes `len : i32`; both call sites pass
a non-negative value, embedded as `Nat`. -/
def encFixedString (s : Str) (len : Nat) : List Nat :=
  s.take len ++ List.replicate (len - s.length) 0

/-- `write_string_varbyte` (writer.rs:229): strings shorter than 128 bytes
get a one-byte length; otherwise the first byte is `(len as u8) | 0x80`
(equal to `len % 128 + 128`) and the second is `(len >> 7) as u8`. -/
def encStringVarbyte (s : Str) : List Nat :=
  (if s.length < 128 then [s.length]
   else [s.length % 128 + 128, s.length / 128 % 256]) ++ s

/-- Overwrite the bytes of `buf` at `pos` with `bs` (the writer's
seek-back-and-patch: `seek(SeekFrom::Start pos)` followed by a write over
already-written bytes). -/
def patchAt (buf : List Nat) (pos : Nat) (bs : List Nat) : List Nat :=
  buf.take pos ++ bs ++ buf.drop (pos + bs.length)

/-! ## Integer parsing and decimal formatting (Rust std)

`str::parse::<iN/uN>` and integer `Display` are standard-library behaviour
used by the text codec and by `DataTable::get_int`.
Modelled from the spec / std documentation: an optional single `+` or `-`
sign (only `+` for the unsigned types), then one or more ASCII digits, the
whole string consumed, rejecting values outside the target range. -/

/-- ASCII digits to a number; `none` if empty or a non-digit appears. -/
def parseDigits (ds : List Nat) : Option Nat :=
  if ds = [] then none
  else ds.foldlM
    (fun acc d => if 48 ≤ d ∧ d ≤ 57 then some (acc * 10 + (d - 48)) else none) 0

/-- Modelled from the spec: Rust `str::parse::<i32>`. -/
def parseI32 (s : Str) : Option Int :=
  let signed : Bool × List Nat :=
    match s with
    | 43 :: rest => (false, rest)
    | 45 :: rest => (true, rest)
    | rest => (false, rest)
  match parseDigits signed.2 with
  | none => none
  | some n =>
    let v : Int := if signed.1 then -(n : Int) else (n : Int)
    if -2147483648 ≤ v ∧ v ≤ 2147483647 then some v else none

/-- Modelled from the spec: Rust `str::parse::<u8>`. -/
def parseU8 (s : Str) : Option Nat :=
  let rest : List Nat := match s with | 43 :: rest => rest | rest => rest
  match parseDigits rest with
  | none => none
  | some n => if n ≤ 255 then some n else none

/-- Modelled from the spec: Rust `str::parse::<u32>`. -/
def parseU32 (s : Str) : Option Nat :=
  let rest : List Nat := match s with | 43 :: rest => rest | rest => rest
  match parseDigits rest with
  | none => none
  | some n => if n ≤ 4294967295 then some n else none

/-- Decimal form of a `Nat` (Rust integer `Display`), at the byte level. -/
def dec (n : Nat) : Str := ascii (Nat.repr n)

/-! ## The two-pass tabular codec (files/stb.rs) -/

/-- `DataTableColumn`: a header name and a display width (u16). -/
structure DataTableColumn where
  name : Str
  width : Nat
  deriving DecidableEq

/-- `DataTable` (stb.rs:27). -/
structure DataTable where
  identifier : Str
  header_row_height : Nat
  header_row_name : Str
  headers : List DataTableColumn
  data : List (List Str)
  row_height : Nat
  deriving DecidableEq

/-- `DataTable::default`. -/
def DataTable.default : DataTable :=
  { identifier := ascii ("STB1")
    header_row_height := 100
    header_row_name := []
    headers := []
    data := []
    row_height := 40 }

/-- `DataTable::rows`. -/
def DataTable.rows (t : DataTable) : Nat := t.data.length

/-- `DataTable::cols`: the length of the first data row (0 when empty). -/
def DataTable.cols (t : DataTable) : Nat :=
  if t.rows > 0 then (t.data.headI).length else 0

/-- `DataTable::value` (stb.rs:73): bounds-check against `rows()`/`cols()`,
then index `data[row][col]`.  Because `cols()` is the length of row 0, the
inner indexing can panic on a shorter row, embedded as `Err.panic`. -/
def DataTable.value (t : DataTable) (row col : Nat) :
    Except Err (Option Str) :=
  if row < t.rows ∧ col < t.cols then
    match (t.data.get? row).bind (fun r => r.get? col) with
    | some s => .ok (some s)
    | none => .error .panic
  else .ok none

/-- `DataTable::value_as_int`: `value(row, col).unwrap_or("").parse::<i32>().ok()`. -/
def DataTable.value_as_int (t : DataTable) (row col : Nat) :
    Except Err (Option Int) := do
  let ov ← t.value row col
  pure (parseI32 (ov.getD []))

/-- `DataTable::get`: `value(row, col).unwrap_or("")`. -/
def DataTable.get (t : DataTable) (row col : Nat) : Except Err Str := do
  let ov ← t.value row col
  pure (ov.getD [])

/-- `DataTable::get_int`: `value_as_int(row, col).unwrap_or(0)`. -/
def DataTable.get_int (t : DataTable) (row col : Nat) : Except Err Int := do
  let oi ← t.value_as_int row col
  pure (oi.getD 0)

/-- One row of the second reading phase of `DataTable::read`: the bulk cells
of one row (columns 1..cols). -/
def stbReadCellRow (colCount : Nat) (st : RState) :
    Except Err (List Str × RState) :=
  rLoop colCount rStringU16 st

/-- `DataTable::read` (stb.rs:98), starting from `DataTable::default` as
`RoseFile::from_path` does. -/
def stbRead (bytes : List Nat) : Except Err DataTable := do
  let st : RState := ⟨bytes, 0⟩
  let (identifier, st) ← rString 4 st
  let (offset, st) ← rU32 st
  let (rawRows, st) ← rU32 st
  let rowCount := rawRows - 1
  let (rawCols, st) ← rU32 st
  let colCount := rawCols - 1
  let (rowHeight32, st) ← rU32 st
  let row_height := rowHeight32 % 65536
  let (header_row_height, header_column_width, column_widths, st) ←
    if identifier = ascii ("STB0") then do
      let (w32, st) ← rU32 st
      pure (100, w32 % 65536, List.replicate colCount (w32 % 65536), st)
    else do
      let (hrh, st) ← rU16 st
      let (hcw, st) ← rU16 st
      let (ws, st) ← rLoop colCount rU16 st
      pure (hrh, hcw, ws, st)
  let (header_column_name, st) ← rStringU16 st
  let (names, st) ← rLoop colCount rStringU16 st
  let headers := ⟨header_column_name, header_column_width⟩ ::
    (names.zip column_widths).map (fun p => DataTableColumn.mk p.1 p.2)
  let (header_row_name, st) ← rStringU16 st
  let (rowNames, st) ← rLoop rowCount rStringU16 st
  let st := rSeekStart offset st
  let (cellRows, _st) ← rLoop rowCount (stbReadCellRow colCount) st
  pure { identifier := identifier
         header_row_height := header_row_height
         header_row_name := header_row_name
         headers := headers
         data := (rowNames.zip cellRows).map (fun p => p.1 :: p.2)
         row_height := row_height }

/-- `DataTable::write` (stb.rs:150): write a placeholder offset, everything
up to and including the row-name cells, then the bulk cells, then seek back
to offset 4 and patch in the recorded stream position.  The writer starts on
an empty buffer and never seeks before the final patch, so the stream
position always equals the buffer length and the sequential writes are
embedded as appends; the final `seek(Start 4)` plus `write_u32(offset)` is
the `patchAt` splice over the 4 placeholder bytes.  Writing panics only on
an empty data row (the `row[0]` indexing). -/
def stbWrite (t : DataTable) : Except Err (List Nat) := do
  let buf := encFixedString t.identifier 4
  let buf := buf ++ encU32 0
  let buf := buf ++ encU32 (t.data.length + 1)
  let buf := buf ++ encU32 t.headers.length
  let buf := buf ++ encU32 t.row_height
  let buf := buf ++ encU16 t.header_row_height
  let buf := t.headers.foldl (fun buf h => buf ++ encU16 h.width) buf
  let buf := t.headers.foldl (fun buf h => buf ++ encStringU16 h.name) buf
  let buf := buf ++ encStringU16 t.header_row_name
  let buf ← t.data.foldlM
    (fun buf row =>
      match row.head? with
      | some name => pure (buf ++ encStringU16 name)
      | none => Except.error Err.panic)
    buf
  let offset := buf.length
  let buf := t.data.foldl
    (fun buf row => (row.drop 1).foldl (fun buf cell => buf ++ encStringU16 cell) buf)
    buf
  pure (patchAt buf 4 (encU32 offset))

/-- The identifier `DataTable::read` recovers from the 4-byte fixed
identifier field `DataTable::write` emits: the field's bytes with at most
one trailing 0x00 stripped (`read_string(4)` applied to the output of
`write_string(identifier, 4)`). -/
def stbIdentBytes (s : Str) : Str :=
  let p := encFixedString s 4
  if p.getLast? = some 0 then p.dropLast else p

/-! ## The property-stream model codec (files/zsc.rs): data model

`f32` fields hold the 32-bit pattern. -/

/-- The pattern of `1.0f32`. -/
def f32One : Nat := 1065353216

/-- `x == 0.0f32` at the bit level: exactly the two zero patterns (NaN
patterns compare unequal to zero, matching Rust float equality). -/
def f32IsZero (b : Nat) : Bool := b % 2147483648 == 0

/-- The pattern of `|x|` (clear the sign bit). -/
def f32Abs (b : Nat) : Nat := b % 2147483648

/-- `Vector3<f32>`. -/
structure Vec3F where
  x : Nat
  y : Nat
  z : Nat
  deriving DecidableEq

/-- `Quaternion`. -/
structure QuatF where
  x : Nat
  y : Nat
  z : Nat
  w : Nat
  deriving DecidableEq

/-- `Color3`. -/
structure Color3F where
  r : Nat
  g : Nat
  b : Nat
  deriving DecidableEq

/-- `Vector2<i32>`. -/
structure Vec2I where
  x : Int
  y : Int
  deriving DecidableEq

/-- `BoundingBox<f32>`. -/
structure BoundingBoxF where
  min : Vec3F
  max : Vec3F
  deriving DecidableEq

/-- `BoundingCylinder`. -/
structure BoundingCylinderF where
  center : Vec2I
  radius : Nat
  deriving DecidableEq

/-- `Vector3::ZERO`. -/
def vec3Zero : Vec3F := ⟨0, 0, 0⟩

/-- `Vector3::ONE`. -/
def vec3One : Vec3F := ⟨f32One, f32One, f32One⟩

/-- `Quaternion::IDENTITY` (`new(0, 0, 0, 1)`). -/
def quatIdentity : QuatF := ⟨0, 0, 0, f32One⟩

/-- `Color3::WHITE`. -/
def color3White : Color3F := ⟨f32One, f32One, f32One⟩

/-- `Quaternion::is_near_identity` (utils.rs:194): `acos(|w|) * 2 <
0.0028471446`.  Since `acos` is strictly decreasing this holds exactly for
`|w|` in `(cos 0.0014235723, 1]`; the lower endpoint rounds to the `f32`
17 ulps below one (pattern 1065353199).  Patterns above the pattern of one
(values > 1, infinities, NaN) make `acos` return NaN, which fails the
comparison.  The embedding decides the comparison on patterns, which is
exact up to the rounding of the underlying `acos` at the threshold
boundary itself; no theorem in this file depends on the boundary. -/
def QuatF.isNearIdentity (q : QuatF) : Bool :=
  1065353199 < f32Abs q.w && f32Abs q.w ≤ f32One

/-- Rust `u32 as f32` (the bounding-cylinder radius read): round to nearest,
ties to even. -/
def u32ToF32bits (n : Nat) : Nat :=
  if n = 0 then 0
  else
    let k := Nat.log2 n
    if k ≤ 23 then (127 + k) * 8388608 + (n * 2 ^ (23 - k) - 8388608)
    else
      let shift := k - 23
      let q := n / 2 ^ shift
      let r := n % 2 ^ shift
      let q' := if 2 ^ shift < r * 2 ∨ (r * 2 = 2 ^ shift ∧ q % 2 = 1)
        then q + 1 else q
      if q' = 16777216 then (127 + k + 1) * 8388608
      else (127 + k) * 8388608 + (q' - 8388608)

/-- Rust `f32 as u32` (the bounding-cylinder radius write): truncate toward
zero, saturate at the range ends, NaN to 0. -/
def f32BitsToU32 (b : Nat) : Nat :=
  let sign := b / 2147483648
  let exp := b / 8388608 % 256
  let frac := b % 8388608
  if exp = 255 then (if frac ≠ 0 then 0 else if sign = 1 then 0 else 4294967295)
  else if sign = 1 then 0
  else if exp < 127 then 0
  else
    let e := exp - 127
    let mant := 8388608 + frac
    let val := if 23 ≤ e then mant * 2 ^ (e - 23) else mant / 2 ^ (23 - e)
    min val 4294967295

/-- `MaterialBlendMode`. -/
inductive MaterialBlendMode where
  | lighten : MaterialBlendMode
  deriving DecidableEq

/-- `MaterialGlowType`. -/
inductive MaterialGlowType where
  | simple : MaterialGlowType
  | light : MaterialGlowType
  | texture : MaterialGlowType
  | textureLight : MaterialGlowType
  | alpha : MaterialGlowType
  deriving DecidableEq

/-- `MaterialGlowType as u16`. -/
def MaterialGlowType.toU16 : MaterialGlowType → Nat
  | .simple => 2
  | .light => 3
  | .texture => 4
  | .textureLight => 5
  | .alpha => 6

/-- `FromPrimitive::from_u16` for `MaterialGlowType`. -/
def materialGlowTypeFromU16 (n : Nat) : Option MaterialGlowType :=
  match n with
  | 2 => some .simple
  | 3 => some .light
  | 4 => some .texture
  | 5 => some .textureLight
  | 6 => some .alpha
  | _ => none

/-- `MaterialGlow`. -/
structure MaterialGlow where
  glow_type : MaterialGlowType
  color : Color3F
  deriving DecidableEq

/-- `ModelMaterial`.  The source's custom `PartialEq`/`Hash` identify
materials whose `alpha` (and glow color channels) agree after quantization
by 255; the embedding uses structural equality of patterns, which refines
it and coincides on every value in this development. -/
structure ModelMaterial where
  path : Str
  is_skin : Bool
  alpha_enabled : Bool
  two_sided : Bool
  alpha_test : Option Nat
  z_write_enabled : Bool
  z_test_enabled : Bool
  blend_mode : Option MaterialBlendMode
  specular_enabled : Bool
  alpha : Nat
  glow : Option MaterialGlow
  deriving DecidableEq

/-- `ModelMaterial::default`. -/
def ModelMaterial.default : ModelMaterial :=
  { path := []
    is_skin := false
    alpha_enabled := false
    two_sided := false
    alpha_test := some 128
    z_write_enabled := true
    z_test_enabled := true
    blend_mode := none
    specular_enabled := false
    alpha := f32One
    glow := none }

/-- `ModelCollisionShape`. -/
inductive ModelCollisionShape where
  | sphere : ModelCollisionShape
  | aabb : ModelCollisionShape
  | oobb : ModelCollisionShape
  | mesh : ModelCollisionShape
  deriving DecidableEq

/-- `ModelCollisionShape as u32`. -/
def ModelCollisionShape.toU32 : ModelCollisionShape → Nat
  | .sphere => 1
  | .aabb => 2
  | .oobb => 3
  | .mesh => 4

/-- `FromPrimitive::from_u32` for `ModelCollisionShape`. -/
def modelCollisionShapeFromU32 (n : Nat) : Option ModelCollisionShape :=
  match n with
  | 1 => some .sphere
  | 2 => some .aabb
  | 3 => some .oobb
  | 4 => some .mesh
  | _ => none

/-- `ModelCollisionFlags`, as its raw `u32` bits; the legal bits are 3..7
(mask 248). -/
abbrev ModelCollisionFlags := Nat

/-- `ModelPart`. -/
structure ModelPart where
  mesh_path : Str
  material : Option ModelMaterial
  position : Vec3F
  rotation : QuatF
  scale : Vec3F
  bone_index : Option Nat
  dummy_index : Option Nat
  parent : Option Nat
  collision_shape : Option ModelCollisionShape
  collision_flags : ModelCollisionFlags
  animation_path : Option Str
  range_set_id : Option Nat
  use_lightmap : Bool
  deriving DecidableEq

/-- `ModelPart::default`. -/
def ModelPart.default : ModelPart :=
  { mesh_path := []
    material := some ModelMaterial.default
    position := vec3Zero
    rotation := quatIdentity
    scale := vec3One
    bone_index := none
    dummy_index := none
    parent := none
    collision_shape := none
    collision_flags := 0
    animation_path := none
    range_set_id := none
    use_lightmap := false }

/-- `ModelDummyAttachment`. -/
inductive ModelDummyAttachment where
  | effect (path : Str) (only_visible_at_night : Bool) : ModelDummyAttachment
  | light (name : Str) : ModelDummyAttachment
  deriving DecidableEq

/-- `ModelDummyPoint`. -/
structure ModelDummyPoint where
  attachment : Option ModelDummyAttachment
  position : Vec3F
  rotation : QuatF
  scale : Vec3F
  parent : Option Nat
  deriving DecidableEq

/-- `ModelDummyPoint::default`. -/
def ModelDummyPoint.default : ModelDummyPoint :=
  { attachment := none
    position := vec3Zero
    rotation := quatIdentity
    scale := vec3One
    parent := none }

/-- `Model`. -/
structure Model where
  bounding_cylinder : BoundingCylinderF
  bounding_box : BoundingBoxF
  parts : List ModelPart
  dummy_points : List ModelDummyPoint
  deriving DecidableEq

/-- `Model::default`. -/
def Model.default : Model :=
  { bounding_cylinder := ⟨⟨0, 0⟩, 0⟩
    bounding_box := ⟨vec3Zero, vec3Zero⟩
    parts := []
    dummy_points := [] }

/-- `ModelList`. -/
structure ModelList where
  models : List (Option Model)
  deriving DecidableEq

/-- `ModelProperty` (zsc.rs:253), the part/dummy-point property tags. -/
inductive ModelProperty where
  | pnone : ModelProperty
  | position : ModelProperty
  | rotation : ModelProperty
  | scale : ModelProperty
  | axisRotation : ModelProperty
  | boneIndex : ModelProperty
  | dummyIndex : ModelProperty
  | parent : ModelProperty
  | animation : ModelProperty
  | collision : ModelProperty
  | animationPath : ModelProperty
  | range : ModelProperty
  | useLightmap : ModelProperty
  deriving DecidableEq

/-- `FromPrimitive::from_u8` for `ModelProperty`. -/
def modelPropertyFromU8 (n : Nat) : Option ModelProperty :=
  match n with
  | 0 => some .pnone
  | 1 => some .position
  | 2 => some .rotation
  | 3 => some .scale
  | 4 => some .axisRotation
  | 5 => some .boneIndex
  | 6 => some .dummyIndex
  | 7 => some .parent
  | 8 => some .animation
  | 29 => some .collision
  | 30 => some .animationPath
  | 31 => some .range
  | 32 => some .useLightmap
  | _ => none

/-- `DummyAttachmentType` (zsc.rs:270). -/
inductive DummyAttachmentType where
  | normal : DummyAttachmentType
  | dayNight : DummyAttachmentType
  | lightContainer : DummyAttachmentType
  deriving DecidableEq

/-- `FromPrimitive::from_u16` for `DummyAttachmentType`. -/
def dummyAttachmentTypeFromU16 (n : Nat) : Option DummyAttachmentType :=
  match n with
  | 0 => some .normal
  | 1 => some .dayNight
  | 2 => some .lightContainer
  | _ => none

/-! ## ModelList::read (zsc.rs:282) -/

/-- `read_vector3_f32`. -/
def rVec3F (st : RState) : Except Err (Vec3F × RState) := do
  let (x, st) ← rF32 st
  let (y, st) ← rF32 st
  let (z, st) ← rF32 st
  pure (⟨x, y, z⟩, st)

/-- `read_quaternion_wxyz`. -/
def rQuatWXYZ (st : RState) : Except Err (QuatF × RState) := do
  let (w, st) ← rF32 st
  let (x, st) ← rF32 st
  let (y, st) ← rF32 st
  let (z, st) ← rF32 st
  pure (⟨x, y, z, w⟩, st)

/-- `read_color3`. -/
def rColor3 (st : RState) : Except Err (Color3F × RState) := do
  let (r, st) ← rF32 st
  let (g, st) ← rF32 st
  let (b, st) ← rF32 st
  pure (⟨r, g, b⟩, st)

/-- `read_vector2_i32`. -/
def rVec2I (st : RState) : Except Err (Vec2I × RState) := do
  let (x, st) ← rI32 st
  let (y, st) ← rI32 st
  pure (⟨x, y⟩, st)

/-- One material record of the pool (zsc.rs:292).  Note the source reads
`z_test_enabled` before `z_write_enabled` (the struct-literal evaluation
order) while the writer emits `z_write_enabled` first. -/
def readMaterial (st : RState) : Except Err (ModelMaterial × RState) := do
  let (path, st) ← rCString st
  let (is_skin, st) ← rBool16 st
  let (alpha_enabled, st) ← rBool16 st
  let (two_sided, st) ← rBool16 st
  let (atEnabled, st) ← rBool16 st
  let (alphaRef, st) ← rU16 st
  let (z_test_enabled, st) ← rBool16 st
  let (z_write_enabled, st) ← rBool16 st
  let (blendRaw, st) ← rU16 st
  let (specular_enabled, st) ← rBool16 st
  let (alpha, st) ← rF32 st
  let (glowType, st) ← rU16 st
  let (glowColor, st) ← rColor3 st
  pure ({ path := path
          is_skin := is_skin
          alpha_enabled := alpha_enabled
          two_sided := two_sided
          alpha_test := if atEnabled then some (alphaRef % 256) else none
          z_test_enabled := z_test_enabled
          z_write_enabled := z_write_enabled
          blend_mode := if blendRaw > 0
            then (match blendRaw with | 1 => some .lighten | _ => none) else none
          specular_enabled := specular_enabled
          alpha := alpha
          glow := if glowType > 0
            then (materialGlowTypeFromU16 glowType).map
              (fun t => MaterialGlow.mk t glowColor)
            else none }, st)

/-- The part property loop (zsc.rs:365).  The source loop is unbounded; each
iteration consumes at least one byte, so `data.length + 1` iterations always
suffice and the fuel-exhaustion branch is unreachable from `zscRead`. -/
def readPartProps : Nat → ModelPart → RState → Except Err (ModelPart × RState)
  | 0, _, _ => .error (.generic ("fuel exhausted"))
  | fuel + 1, part, st => do
    let (tagByte, st) ← rU8 st
    match modelPropertyFromU8 tagByte with
    | none => .error (.generic ("Invalid part property " ++ Nat.repr tagByte))
    | some prop =>
      if prop = ModelProperty.pnone then pure (part, st)
      else do
        let (size, st) ← rU8 st
        match prop with
        | .pnone => pure (part, st)
        | .position => do
          let (v, st) ← rVec3F st
          readPartProps fuel { part with position := v } st
        | .rotation => do
          let (q, st) ← rQuatWXYZ st
          readPartProps fuel { part with rotation := q } st
        | .scale => do
          let (v, st) ← rVec3F st
          readPartProps fuel { part with scale := v } st
        | .axisRotation => do
          let (_unused, st) ← rQuatWXYZ st
          readPartProps fuel part st
        | .boneIndex => do
          let (i, st) ← rI16 st
          readPartProps fuel
            (if 0 ≤ i then { part with bone_index := some i.toNat } else part) st
        | .dummyIndex => do
          let (i, st) ← rI16 st
          readPartProps fuel
            (if 0 ≤ i then { part with dummy_index := some i.toNat } else part) st
        | .parent => do
          let (i, st) ← rI16 st
          readPartProps fuel
            (if 0 < i then { part with parent := some (i - 1).toNat } else part) st
        | .collision => do
          let (value, st) ← rU16 st
          let shape := value % 8
          let flags := value - shape
          if flags < 256 then
            readPartProps fuel
              { part with collision_shape := modelCollisionShapeFromU32 shape
                          collision_flags := flags } st
          else .error .panic
        | .animationPath => do
          let (s, st) ← rString size st
          readPartProps fuel { part with animation_path := some s } st
        | .range => do
          let (i, st) ← rI16 st
          readPartProps fuel
            (if 0 < i then { part with range_set_id := some i.toNat } else part) st
        | .useLightmap => do
          let (b, st) ← rBool16 st
          readPartProps fuel { part with use_lightmap := b } st
        | .animation =>
          .error (.generic ("Animation scene object property found but no handler."))

/-- One part record (zsc.rs:352): mesh pool index, material pool index
(negative means no material), then the property stream. -/
def readPartEntry (meshes : List Str) (materials : List ModelMaterial)
    (st : RState) : Except Err (ModelPart × RState) := do
  let (meshIdx, st) ← rI16 st
  let (matIdx, st) ← rI16 st
  let mesh_path ←
    if h : 0 ≤ meshIdx ∧ meshIdx.toNat < meshes.length then
      pure (meshes.get ⟨meshIdx.toNat, h.2⟩)
    else .error .panic
  let material ←
    if 0 ≤ matIdx then
      match materials.get? matIdx.toNat with
      | some m => pure (some m)
      | none => .error .panic
    else pure none
  let part : ModelPart :=
    { ModelPart.default with mesh_path := mesh_path, material := material }
  readPartProps (st.data.length + 1) part st

/-- The dummy-point property loop (zsc.rs:474): tags without a dummy-point
handler are skipped by seeking forward their declared size; a byte that is
not a `ModelProperty` at all is still a hard error. -/
def readDummyProps : Nat → ModelDummyPoint → RState →
    Except Err (ModelDummyPoint × RState)
  | 0, _, _ => .error (.generic ("fuel exhausted"))
  | fuel + 1, dp, st => do
    let (tagByte, st) ← rU8 st
    match modelPropertyFromU8 tagByte with
    | none => .error (.generic ("Invalid part property " ++ Nat.repr tagByte))
    | some prop =>
      if prop = ModelProperty.pnone then pure (dp, st)
      else do
        let (size, st) ← rU8 st
        match prop with
        | .position => do
          let (v, st) ← rVec3F st
          readDummyProps fuel { dp with position := v } st
        | .rotation => do
          let (q, st) ← rQuatWXYZ st
          readDummyProps fuel { dp with rotation := q } st
        | .scale => do
          let (v, st) ← rVec3F st
          readDummyProps fuel { dp with scale := v } st
        | .parent => do
          let (i, st) ← rI16 st
          readDummyProps fuel
            (if 0 < i then { dp with parent := some (i - 1).toNat } else dp) st
        | _ => readDummyProps fuel dp (rSeekCur size st)

/-- One dummy point (zsc.rs:433): effect pool index and attachment kind,
then the property stream.  A non-negative pool index out of range panics on
the `effects[...]` indexing. -/
def readDummyEntry (effects : List Str) (st : RState) :
    Except Err (ModelDummyPoint × RState) := do
  let (effectId, st) ← rI16 st
  let (attachRaw, st) ← rU16 st
  let lookup : Except Err (Option Str) :=
    if 0 ≤ effectId then
      match effects.get? effectId.toNat with
      | some path => .ok (some path)
      | none => .error .panic
    else .ok none
  let attachment ←
    match dummyAttachmentTypeFromU16 attachRaw with
    | some DummyAttachmentType.normal => do
      let p ← lookup
      pure (match p with
        | some path =>
          if path ≠ [] then some (ModelDummyAttachment.effect path false) else none
        | none => none)
    | some DummyAttachmentType.dayNight => do
      let p ← lookup
      pure (match p with
        | some path =>
          if path ≠ [] then some (ModelDummyAttachment.effect path true) else none
        | none => none)
    | some DummyAttachmentType.lightContainer => do
      let p ← lookup
      pure (match p with
        | some path =>
          if path ≠ [] then some (ModelDummyAttachment.light path) else none
        | none => none)
    | none => pure none
  let dp : ModelDummyPoint := { ModelDummyPoint.default with attachment := attachment }
  readDummyProps (st.data.length + 1) dp st

/-- One model record (zsc.rs:341): bounding cylinder, part count — zero
parts decodes the record to an absent model (`none`) — else the parts, the
dummy points, and the bounding box. -/
def readModelEntry (meshes : List Str) (materials : List ModelMaterial)
    (effects : List Str) (st : RState) :
    Except Err (Option Model × RState) := do
  let (radiusU32, st) ← rU32 st
  let (center, st) ← rVec2I st
  let (partCount, st) ← rU16 st
  if partCount = 0 then
    pure (none, st)
  else do
    let (parts, st) ← rLoop partCount (readPartEntry meshes materials) st
    let (dummyCount, st) ← rU16 st
    let (dummies, st) ← rLoop dummyCount (readDummyEntry effects) st
    let (bbMin, st) ← rVec3F st
    let (bbMax, st) ← rVec3F st
    pure (some { bounding_cylinder := ⟨center, u32ToF32bits radiusU32⟩
                 bounding_box := ⟨bbMin, bbMax⟩
                 parts := parts
                 dummy_points := dummies }, st)

/-- `ModelList::read` (zsc.rs:282): the three shared pools, then the model
records. -/
def zscRead (bytes : List Nat) : Except Err ModelList := do
  let st : RState := ⟨bytes, 0⟩
  let (meshCount, st) ← rU16 st
  let (meshes, st) ← rLoop meshCount rCString st
  let (materialCount, st) ← rU16 st
  let (materials, st) ← rLoop materialCount readMaterial st
  let (effectCount, st) ← rU16 st
  let (effects, st) ← rLoop effectCount rCString st
  let (modelCount, st) ← rU16 st
  let (models, _st) ← rLoop modelCount (readModelEntry meshes materials effects) st
  pure ⟨models⟩

/-! ## ModelList::write (zsc.rs:520)

The binary writer never seeks, so it is embedded as pure byte-list
concatenation.  The source collects each pool into a `HashSet` (arbitrary
iteration order) and then sorts; the embedding stands in first-occurrence
order (`eraseDups`) for the set iteration, after which the sort canonicalizes
the order whenever the comparator separates distinct entries. -/

/-- Stable insertion used by `sortByStable`: the new element goes after every
element not greater than it. -/
def insertByStable {α : Type} (cmp : α → α → Ordering) (x : α) :
    List α → List α
  | [] => [x]
  | y :: ys =>
    if cmp y x = Ordering.gt then x :: y :: ys else y :: insertByStable cmp x ys

/-- Rust's stable `sort_by` on a `Vec`: equal elements keep their input
order. -/
def sortByStable {α : Type} (cmp : α → α → Ordering) (l : List α) : List α :=
  l.foldl (fun acc x => insertByStable cmp x acc) []

/-- Byte-lexicographic ordering of strings (Rust `Ord` on `String`). -/
def lexOrd : List Nat → List Nat → Ordering
  | [], [] => .eq
  | [], _ :: _ => .lt
  | _ :: _, [] => .gt
  | a :: as, b :: bs =>
    if a < b then .lt else if b < a then .gt else lexOrd as bs

/-- The de-duplicated, sorted mesh-path pool. -/
def zscMeshPool (v : ModelList) : List Str :=
  sortByStable lexOrd
    (((v.models.filterMap id).flatMap (fun m => m.parts.map (·.mesh_path))).eraseDups)

/-- The de-duplicated material pool, sorted by path only (distinct materials
sharing a path stay in set-iteration order). -/
def zscMaterialPool (v : ModelList) : List ModelMaterial :=
  sortByStable (fun a b => lexOrd a.path b.path)
    (((v.models.filterMap id).flatMap (fun m => m.parts.filterMap (·.material))).eraseDups)

/-- The path or name referenced by a dummy-point attachment. -/
def attachmentPath : ModelDummyAttachment → Str
  | .effect path _ => path
  | .light name => name

/-- The de-duplicated, sorted effect-path pool. -/
def zscEffectPool (v : ModelList) : List Str :=
  sortByStable lexOrd
    (((v.models.filterMap id).flatMap
      (fun m => m.dummy_points.filterMap (fun d => d.attachment.map attachmentPath))).eraseDups)

/-- Pool lookup (`HashMap::get(..).unwrap()`): the index of the entry, or a
panic when it is absent. -/
def poolIdx {α : Type} [BEq α] (pool : List α) (x : α) : Except Err Nat :=
  match pool.findIdx? (fun y => y == x) with
  | some i => .ok i
  | none => .error .panic

/-- `write_vector3_f32`. -/
def encVec3F (v : Vec3F) : List Nat := encF32 v.x ++ encF32 v.y ++ encF32 v.z

/-- `write_quaternion_wxyz`. -/
def encQuatWXYZ (q : QuatF) : List Nat :=
  encF32 q.w ++ encF32 q.x ++ encF32 q.y ++ encF32 q.z

/-- `write_color3`. -/
def encColor3 (c : Color3F) : List Nat := encF32 c.r ++ encF32 c.g ++ encF32 c.b

/-- One material record of the pool (zsc.rs:591).  Note `z_write_enabled` is
written before `z_test_enabled`, the reverse of the read order. -/
def encMaterial (m : ModelMaterial) : List Nat :=
  encCString m.path ++
  encBool16 m.is_skin ++
  encBool16 m.alpha_enabled ++
  encBool16 m.two_sided ++
  (match m.alpha_test with
   | some alphaRef => encBool16 true ++ encU16 alphaRef
   | none => encBool16 false ++ encU16 0) ++
  encBool16 m.z_write_enabled ++
  encBool16 m.z_test_enabled ++
  encU16 (match m.blend_mode with | some .lighten => 1 | none => 0) ++
  encBool16 m.specular_enabled ++
  encF32 m.alpha ++
  (match m.glow with
   | some g => encU16 g.glow_type.toU16 ++ encColor3 g.color
   | none => encU16 0 ++ encColor3 color3White)

/-- The tagged property stream of one part (zsc.rs:649): only non-default
fields are emitted (position not zero, rotation not near-identity, scale not
one, present optional fields, `use_lightmap` set), then the sentinel tag. -/
def partPropsBytes (part : ModelPart) : List Nat :=
  (if f32IsZero part.position.x && f32IsZero part.position.y &&
      f32IsZero part.position.z then []
   else [1, 12] ++ encVec3F part.position) ++
  (if part.rotation.isNearIdentity then []
   else [2, 16] ++ encQuatWXYZ part.rotation) ++
  (if part.scale.x == f32One && part.scale.y == f32One &&
      part.scale.z == f32One then []
   else [3, 12] ++ encVec3F part.scale) ++
  (match part.bone_index with
   | some bi => [5, 2] ++ encU16 bi
   | none => []) ++
  (match part.dummy_index with
   | some di => [6, 2] ++ encU16 di
   | none => []) ++
  (match part.parent with
   | some p => [7, 2] ++ encU16 (p + 1)
   | none => []) ++
  (match part.collision_shape with
   | some cs => [29, 2] ++ encU16 (Nat.lor cs.toU32 part.collision_flags)
   | none => []) ++
  (match part.animation_path with
   | some path => [30, path.length % 256] ++ encFixedString path path.length
   | none => []) ++
  (match part.range_set_id with
   | some r => [31, 2] ++ encU16 r
   | none => []) ++
  (if part.use_lightmap then [32, 2] ++ encBool16 part.use_lightmap else []) ++
  [0]

/-- One part record (zsc.rs:641): mesh pool index, material pool index —
a part without a material is written with index 0, not a negative
sentinel — then the property stream. -/
def writePartBytes (meshPool : List Str) (matPool : List ModelMaterial)
    (part : ModelPart) : Except Err (List Nat) := do
  let meshIdx ← poolIdx meshPool part.mesh_path
  let matBytes ←
    match part.material with
    | some m => do
      let i ← poolIdx matPool m
      pure (encU16 i)
    | none => pure (encU16 0)
  pure (encU16 meshIdx ++ matBytes ++ partPropsBytes part)

/-- The tagged property stream of one dummy point (zsc.rs:737). -/
def dummyPropsBytes (dp : ModelDummyPoint) : List Nat :=
  (if f32IsZero dp.position.x && f32IsZero dp.position.y &&
      f32IsZero dp.position.z then []
   else [1, 12] ++ encVec3F dp.position) ++
  (if dp.rotation.isNearIdentity then []
   else [2, 16] ++ encQuatWXYZ dp.rotation) ++
  (if dp.scale.x == f32One && dp.scale.y == f32One &&
      dp.scale.z == f32One then []
   else [3, 12] ++ encVec3F dp.scale) ++
  (match dp.parent with
   | some p => [7, 2] ++ encU16 (p + 1)
   | none => []) ++
  [0]

/-- One dummy-point record (zsc.rs:714). -/
def writeDummyBytes (effectPool : List Str) (dp : ModelDummyPoint) :
    Except Err (List Nat) := do
  let head ←
    match dp.attachment with
    | some (ModelDummyAttachment.effect path night) => do
      let i ← poolIdx effectPool path
      pure (encU16 i ++ encU16 (if night then 1 else 0))
    | some (ModelDummyAttachment.light name) => do
      let i ← poolIdx effectPool name
      pure (encU16 i ++ encU16 2)
    | none => pure (encI16 (-1) ++ encU16 0)
  pure (head ++ dummyPropsBytes dp)

/-- One model record (zsc.rs:626): a hole is written as a zero header and a
part count of 0 with no part or dummy-point data; a model with an empty part
list also stops after its part count. -/
def writeModelEntryBytes (meshPool : List Str) (matPool : List ModelMaterial)
    (effectPool : List Str) (o : Option Model) : Except Err (List Nat) := do
  match o with
  | none => pure (encU32 0 ++ encI32 0 ++ encI32 0 ++ encU16 0)
  | some m => do
    let head := encU32 (f32BitsToU32 m.bounding_cylinder.radius) ++
      encI32 m.bounding_cylinder.center.x ++
      encI32 m.bounding_cylinder.center.y ++
      encU16 m.parts.length
    if m.parts = [] then pure head
    else do
      let partBytes ← m.parts.mapM (writePartBytes meshPool matPool)
      let dummyBytes ← m.dummy_points.mapM (writeDummyBytes effectPool)
      pure (head ++ partBytes.flatten ++
        encU16 m.dummy_points.length ++ dummyBytes.flatten ++
        encVec3F m.bounding_box.min ++ encVec3F m.bounding_box.max)

/-- `ModelList::write` (zsc.rs:520). -/
def zscWrite (v : ModelList) : Except Err (List Nat) := do
  let meshPool := zscMeshPool v
  let matPool := zscMaterialPool v
  let effectPool := zscEffectPool v
  let entries ← v.models.mapM (writeModelEntryBytes meshPool matPool effectPool)
  pure (encU16 meshPool.length ++ (meshPool.map encCString).flatten ++
    encU16 matPool.length ++ (matPool.map encMaterial).flatten ++
    encU16 effectPool.length ++ (effectPool.map encCString).flatten ++
    encU16 v.models.length ++ entries.flatten)

/-! ## The ZSC text form (zsc.rs:773)

The text codec works on whole lines (the source reads with `read_line` and
writes with `writeln!`); it is embedded at line granularity, a line being a
byte string without its newline.  Floating-point formatting (`Display` for
`f32`) and parsing (`parse::<f32>`) are standard-library decimal
conversions that no claim depends on; both are taken as parameters, and
every theorem about the text codec holds for all values of the parameters. -/

/-- A space byte. -/
def sp : Str := [32]

/-- Decimal form of an `Int` (Rust integer `Display`). -/
def decI (i : Int) : Str := ascii (toString i)

/-- `Model::write` (zsc.rs:1264), producing the list of lines.  `fmt` is the
`Display` conversion for `f32` patterns. -/
def zscTextWrite (fmt : Nat → Str) (m : Model) : List Str :=
  (ascii ("numobj ") ++ dec m.parts.length) ::
  (if f32IsZero m.bounding_cylinder.radius = false ∨
      m.bounding_cylinder.center.x ≠ 0 ∨ m.bounding_cylinder.center.y ≠ 0 then
    [ascii ("cylinder ") ++ decI m.bounding_cylinder.center.x ++ sp ++
      decI m.bounding_cylinder.center.y ++ sp ++ fmt m.bounding_cylinder.radius]
   else []) ++
  ((m.parts.enum.map (fun pi =>
    let part := pi.2
    let mat := part.material
    [[], ascii ("\tpart ") ++ dec (pi.1 + 1),
     ascii ("\tmesh ") ++ part.mesh_path] ++
    (if f32IsZero part.position.x && f32IsZero part.position.y &&
        f32IsZero part.position.z then []
     else [ascii ("\tpos ") ++ fmt part.position.x ++ sp ++
       fmt part.position.y ++ sp ++ fmt part.position.z]) ++
    (if part.rotation.isNearIdentity then []
     else [ascii ("\trot ") ++ fmt part.rotation.w ++ sp ++ fmt part.rotation.x
       ++ sp ++ fmt part.rotation.y ++ sp ++ fmt part.rotation.z]) ++
    (if f32IsZero part.scale.x && f32IsZero part.scale.y &&
        f32IsZero part.scale.z then []
     else [ascii ("\tscale ") ++ fmt part.scale.x ++ sp ++ fmt part.scale.y ++
       sp ++ fmt part.scale.z]) ++
    (match part.collision_shape with
     | some cs => [ascii ("\tcollision ") ++
         dec (Nat.lor cs.toU32 part.collision_flags)]
     | none => []) ++
    (match part.animation_path with
     | some path => [ascii ("\tanim ") ++ path]
     | none => []) ++
    (match part.parent with
     | some p => [ascii ("\tparent ") ++ dec (p + 1)]
     | none => []) ++
    (match part.dummy_index with
     | some di => [ascii ("\tlinkdummy ") ++ dec di]
     | none => []) ++
    (match part.bone_index with
     | some bi => [ascii ("\tbonenumber ") ++ dec bi]
     | none => []) ++
    (match part.range_set_id with
     | some r => [ascii ("\trangeset ") ++ dec r]
     | none => []) ++
    (if part.use_lightmap then [ascii ("\tuselightmap 1")] else []) ++
    (match mat with
     | some material =>
       (ascii ("\tmat ") ++ material.path) ::
       (if material.is_skin then [ascii ("\t\tisskin 1")] else []) ++
       (if f32IsZero material.alpha then []
        else [ascii ("\t\talpha ") ++ fmt material.alpha]) ++
       (if material.two_sided then [ascii ("\t\ttwoside 1")] else []) ++
       (match material.alpha_test with
        | some alphaRef => [ascii ("\t\talphatest 1"),
            ascii ("\t\talpharef ") ++ dec alphaRef]
        | none => []) ++
       (if material.z_test_enabled then [] else [ascii ("\t\tztest 0")]) ++
       (if material.z_write_enabled then [] else [ascii ("\t\tzwrite 0")]) ++
       (match material.blend_mode with
        | some .lighten => [ascii ("\t\tblendtype 1")]
        | none => []) ++
       (if material.specular_enabled then [ascii ("\t\tspecular 1")] else []) ++
       (if material.alpha == f32One then []
        else [ascii ("\t\talpha ") ++ fmt material.alpha]) ++
       (match material.glow with
        | some g => [ascii ("\t\tglowtype ") ++ dec g.glow_type.toU16,
            ascii ("\t\tglowcolor ") ++ fmt g.color.r ++ sp ++ fmt g.color.g ++
              sp ++ fmt g.color.b]
        | none => [])
     | none => []))).flatten) ++
  (if m.dummy_points = [] then []
   else [[], ascii ("numpoints ") ++ dec m.dummy_points.length]) ++
  ((m.dummy_points.enum.map (fun di =>
    let dp := di.2
    [[], ascii ("\tpoint ") ++ dec (di.1 + 1)] ++
    (match dp.attachment with
     | some (ModelDummyAttachment.effect path night) =>
       [ascii ("\teffect ") ++ path,
        ascii ("\ttype ") ++ dec (if night then 1 else 0)]
     | some (ModelDummyAttachment.light name) =>
       [ascii ("\teffect ") ++ name, ascii ("\ttype 2")]
     | none => [ascii ("\teffect "), ascii ("\ttype 0")]) ++
    (if f32IsZero dp.position.x && f32IsZero dp.position.y &&
        f32IsZero dp.position.z then []
     else [ascii ("\tpos ") ++ fmt dp.position.x ++ sp ++ fmt dp.position.y ++
       sp ++ fmt dp.position.z]) ++
    (if dp.rotation.isNearIdentity then []
     else [ascii ("\trot ") ++ fmt dp.rotation.w ++ sp ++ fmt dp.rotation.x ++
       sp ++ fmt dp.rotation.y ++ sp ++ fmt dp.rotation.z]) ++
    (if f32IsZero dp.scale.x && f32IsZero dp.scale.y &&
        f32IsZero dp.scale.z then []
     else [ascii ("\tscale ") ++ fmt dp.scale.x ++ sp ++ fmt dp.scale.y ++ sp ++
       fmt dp.scale.z]) ++
    (match dp.parent with
     | some p => [ascii ("\tparent ") ++ dec (p + 1)]
     | none => []))).flatten)

/-- An ASCII whitespace byte (the ASCII fragment of Rust
`char::is_whitespace`; the source splits lines with `split_whitespace`). -/
def isWsByte (b : Nat) : Bool :=
  b == 9 || b == 10 || b == 11 || b == 12 || b == 13 || b == 32

/-- Accumulator pass of `splitWs`. -/
def splitWsAux : List Nat → List Nat → List Str
  | [], acc => if acc = [] then [] else [acc.reverse]
  | b :: rest, acc =>
    if isWsByte b then
      if acc = [] then splitWsAux rest []
      else acc.reverse :: splitWsAux rest []
    else splitWsAux rest (b :: acc)

/-- `str::split_whitespace` on a line: maximal non-whitespace runs. -/
def splitWs (s : Str) : List Str := splitWsAux s []

/-- The in-progress block of the text parser (zsc.rs:779): a part being
accumulated (with its pending `alphatest` flag, `alpharef` value and glow
color), or a dummy point (with its pending `effect` string). -/
inductive ParseObject where
  | part (part : ModelPart) (alpha_test : Bool) (alpha_ref : Nat)
      (glow_color : Color3F) : ParseObject
  | dummy (dummy : ModelDummyPoint) (effect : Str) : ParseObject
  deriving DecidableEq

/-- `complete_object` (zsc.rs:793): commit the in-progress block to the
model, applying the pending alpha-test / glow-color / effect fix-ups. -/
def completeObject (m : Model) (po : Option ParseObject) : Model :=
  match po with
  | none => m
  | some (.part part alphaTest alphaRef glowColor) =>
    let part :=
      if alphaTest then
        match part.material with
        | some material =>
          { part with material := some ({ material with alpha_test := some alphaRef }) }
        | none => part
      else part
    let part :=
      match part.material with
      | some material =>
        (match material.glow with
         | some g =>
           let material2 := { material with glow := some ({ g with color := glowColor }) }
           { part with material := some material2 }
         | none => part)
      | none => part
    { m with parts := m.parts ++ [part] }
  | some (.dummy dp effectStr) =>
    let dp :=
      match dp.attachment with
      | some (ModelDummyAttachment.effect _ night) =>
        { dp with attachment := some (ModelDummyAttachment.effect effectStr night) }
      | some (ModelDummyAttachment.light _) =>
        { dp with attachment := some (ModelDummyAttachment.light effectStr) }
      | none => dp
    { m with dummy_points := m.dummy_points ++ [dp] }

/-- The `parse::<T>(words, idx)` helper (zsc.rs:884). -/
def parseArg {α : Type} (p : Str → Option α) (words : List Str) (idx : Nat) :
    Except Err α :=
  match words.get? idx with
  | none => .error (.generic ("property missing required parameter"))
  | some w =>
    match p w with
    | some v => .ok v
    | none => .error (.generic ("property has invalid value"))

/-- `parse_part_property` (zsc.rs:832). -/
def onPart (po : Option ParseObject) (n : Nat) (f : ModelPart → ModelPart) :
    Except Err ParseObject :=
  match po with
  | some (.part p a b c) => .ok (.part (f p) a b c)
  | some (.dummy _ _) =>
    .error (.generic ("Unexpected property for a dummy point on line " ++ Nat.repr n))
  | none =>
    .error (.generic ("Unexpected property outside of an obj / point on line " ++ Nat.repr n))

/-- `parse_point_property` (zsc.rs:853). -/
def onDummy (po : Option ParseObject) (n : Nat)
    (f : ModelDummyPoint → ModelDummyPoint) : Except Err ParseObject :=
  match po with
  | some (.part _ _ _ _) =>
    .error (.generic ("Unexpected property for a model part point on line " ++ Nat.repr n))
  | some (.dummy d e) => .ok (.dummy (f d) e)
  | none =>
    .error (.generic ("Unexpected property outside of an obj / point on line " ++ Nat.repr n))

/-- `parse_part_material_property` (zsc.rs:874): the material is created
with `ModelMaterial::default` when absent. -/
def onMaterial (po : Option ParseObject) (n : Nat)
    (f : ModelMaterial → ModelMaterial) : Except Err ParseObject :=
  onPart po n (fun part =>
    { part with material := some (f (part.material.getD ModelMaterial.default)) })

/-- One line of `Model::read` (zsc.rs:900): tokenize, skip blank and `//`
lines, and dispatch on the leading keyword; a line with an unknown keyword
is silently ignored (the `if` chain has no final `else`). -/
def processLine (pf : Str → Option Nat) (m : Model) (po : Option ParseObject)
    (n : Nat) (line : Str) : Except Err (Model × Option ParseObject) :=
  let words := splitWs line
  match words with
  | [] => .ok (m, po)
  | w0 :: _ =>
    if w0.take 2 = ascii ("//") then .ok (m, po)
    else if w0 = ascii ("numobj") then do
      let _ ← parseArg parseI32 words 1
      pure (m, po)
    else if w0 = ascii ("obj") then
      .ok (completeObject m po, some (.part ModelPart.default false 128 color3White))
    else if w0 = ascii ("numpoint") then do
      let _ ← parseArg parseI32 words 1
      pure (m, po)
    else if w0 = ascii ("point") then
      .ok (completeObject m po, some (.dummy ModelDummyPoint.default []))
    else if w0 = ascii ("cylinder") then do
      let cx ← parseArg parseI32 words 1
      let cy ← parseArg parseI32 words 2
      let r ← parseArg pf words 3
      pure ({ m with bounding_cylinder := ⟨⟨cx, cy⟩, r⟩ }, po)
    else if w0 = ascii ("pos") then do
      let x ← parseArg pf words 1
      let y ← parseArg pf words 2
      let z ← parseArg pf words 3
      match po with
      | some (.part p a b c) =>
        pure (m, some (.part ({ p with position := ⟨x, y, z⟩ }) a b c))
      | some (.dummy d e) =>
        pure (m, some (.dummy ({ d with position := ⟨x, y, z⟩ }) e))
      | none => .error (.generic
          ("Unexpected pos outside of an obj / point on line " ++ Nat.repr n))
    else if w0 = ascii ("rot") then do
      let x ← parseArg pf words 2
      let y ← parseArg pf words 3
      let z ← parseArg pf words 4
      let w ← parseArg pf words 1
      match po with
      | some (.part p a b c) =>
        pure (m, some (.part ({ p with rotation := ⟨x, y, z, w⟩ }) a b c))
      | some (.dummy d e) =>
        pure (m, some (.dummy ({ d with rotation := ⟨x, y, z, w⟩ }) e))
      | none => .error (.generic
          ("Unexpected rot outside of an obj / point on line " ++ Nat.repr n))
    else if w0 = ascii ("scale") then do
      let x ← parseArg pf words 1
      let y ← parseArg pf words 2
      let z ← parseArg pf words 3
      match po with
      | some (.part p a b c) =>
        pure (m, some (.part ({ p with scale := ⟨x, y, z⟩ }) a b c))
      | some (.dummy d e) =>
        pure (m, some (.dummy ({ d with scale := ⟨x, y, z⟩ }) e))
      | none => .error (.generic
          ("Unexpected scale outside of an obj / point on line " ++ Nat.repr n))
    else if w0 = ascii ("parent") then do
      let v ← parseArg parseI32 words 1
      match po with
      | some (.part p a b c) =>
        pure (m, some (.part
          (if 0 < v then { p with parent := some ((v - 1).toNat % 65536) } else p)
          a b c))
      | some (.dummy d e) =>
        pure (m, some (.dummy
          (if 0 < v then { d with parent := some ((v - 1).toNat % 65536) } else d)
          e))
      | none => .error (.generic
          ("Unexpected parent outside of an obj / point on line " ++ Nat.repr n))
    else if w0 = ascii ("mesh") then
      let path := (words.get? 1).getD []
      if path = [] then .error (.generic ("mesh property missing path"))
      else do
        let po2 ← onPart po n (fun part => { part with mesh_path := path })
        pure (m, some po2)
    else if w0 = ascii ("mat") then
      let path := (words.get? 1).getD []
      if path = [] then .error (.generic ("mat property missing path"))
      else do
        let po2 ← onMaterial po n (fun mat => { mat with path := path })
        pure (m, some po2)
    else if w0 = ascii ("isskin") then do
      let v ← parseArg parseI32 words 1
      let po2 ← onMaterial po n (fun mat => { mat with is_skin := decide (v ≠ 0) })
      pure (m, some po2)
    else if w0 = ascii ("alpha") then do
      let v ← parseArg parseI32 words 1
      let po2 ← onMaterial po n
        (fun mat => { mat with alpha_enabled := decide (v ≠ 0) })
      pure (m, some po2)
    else if w0 = ascii ("twoside") then do
      let v ← parseArg parseI32 words 1
      let po2 ← onMaterial po n (fun mat => { mat with two_sided := decide (v ≠ 0) })
      pure (m, some po2)
    else if w0 = ascii ("alphatest") then do
      let v ← parseArg parseI32 words 1
      match po with
      | some (.part p _ b c) => pure (m, some (.part p (decide (v ≠ 0)) b c))
      | some (.dummy _ _) => .error (.generic
          ("Unexpected property for a dummy point on line " ++ Nat.repr n))
      | none => .error (.generic
          ("Unexpected property outside of an obj / point on line " ++ Nat.repr n))
    else if w0 = ascii ("alpharef") then do
      let v ← parseArg parseU8 words 1
      match po with
      | some (.part p a _ c) => pure (m, some (.part p a v c))
      | some (.dummy _ _) => .error (.generic
          ("Unexpected property for a dummy point on line " ++ Nat.repr n))
      | none => .error (.generic
          ("Unexpected property outside of an obj / point on line " ++ Nat.repr n))
    else if w0 = ascii ("ztest") then do
      let v ← parseArg parseI32 words 1
      let po2 ← onMaterial po n
        (fun mat => { mat with z_test_enabled := decide (v ≠ 0) })
      pure (m, some po2)
    else if w0 = ascii ("zwrite") then do
      let v ← parseArg parseI32 words 1
      let po2 ← onMaterial po n
        (fun mat => { mat with z_write_enabled := decide (v ≠ 0) })
      pure (m, some po2)
    else if w0 = ascii ("blendtype") then do
      let v ← parseArg parseU32 words 1
      let blend : Option MaterialBlendMode :=
        match v with | 1 => some .lighten | _ => none
      if v ≠ 0 ∧ blend = none then
        .error (.generic ("Unexpected blendtype on line " ++ Nat.repr n))
      else do
        let po2 ← onMaterial po n (fun mat => { mat with blend_mode := blend })
        pure (m, some po2)
    else if w0 = ascii ("specular") then do
      let v ← parseArg parseI32 words 1
      let po2 ← onMaterial po n
        (fun mat => { mat with specular_enabled := decide (v ≠ 0) })
      pure (m, some po2)
    else if w0 = ascii ("alphavalue") then do
      let v ← parseArg pf words 1
      let po2 ← onMaterial po n (fun mat => { mat with alpha := v })
      pure (m, some po2)
    else if w0 = ascii ("glowtype") then do
      let v ← parseArg parseU32 words 1
      let gt := materialGlowTypeFromU16 v
      if v ≠ 0 ∧ gt = none then
        .error (.generic ("Unexpected glowtype on line " ++ Nat.repr n))
      else
        match gt with
        | some t => do
          let po2 ← onMaterial po n
            (fun mat => { mat with glow := some ⟨t, color3White⟩ })
          pure (m, some po2)
        | none => pure (m, po)
    else if w0 = ascii ("glowcolor") then do
      let r ← parseArg pf words 1
      let g ← parseArg pf words 2
      let b ← parseArg pf words 3
      match po with
      | some (.part p a bb _) => pure (m, some (.part p a bb ⟨r, g, b⟩))
      | some (.dummy _ _) => .error (.generic
          ("Unexpected property for a dummy point on line " ++ Nat.repr n))
      | none => .error (.generic
          ("Unexpected property outside of an obj / point on line " ++ Nat.repr n))
    else if w0 = ascii ("linkdummy") then do
      let v ← parseArg parseI32 words 1
      if 0 ≤ v then do
        let po2 ← onPart po n
          (fun part => { part with dummy_index := some (v.toNat % 65536) })
        pure (m, some po2)
      else pure (m, po)
    else if w0 = ascii ("bonenumber") then do
      let v ← parseArg parseI32 words 1
      if 0 ≤ v then do
        let po2 ← onPart po n
          (fun part => { part with bone_index := some (v.toNat % 65536) })
        pure (m, some po2)
      else pure (m, po)
    else if w0 = ascii ("collision") then do
      let v ← parseArg parseU32 words 1
      let shape := v % 8
      let flags := v - shape
      if flags < 256 then
        match modelCollisionShapeFromU32 shape with
        | some cs => do
          let po2 ← onPart po n (fun part =>
            { part with collision_shape := some cs, collision_flags := flags })
          pure (m, some po2)
        | none => pure (m, po)
      else .error .panic
    else if w0 = ascii ("anim") then
      let path? := words.get? 1
      if path? = some [] then .error (.generic ("anim property missing path"))
      else do
        let po2 ← onPart po n (fun part => { part with animation_path := path? })
        pure (m, some po2)
    else if w0 = ascii ("rangeset") then do
      let v ← parseArg parseI32 words 1
      if 0 < v then do
        let po2 ← onPart po n
          (fun part => { part with range_set_id := some (v.toNat % 65536) })
        pure (m, some po2)
      else pure (m, po)
    else if w0 = ascii ("uselightmap") then do
      let v ← parseArg parseI32 words 1
      let po2 ← onPart po n
        (fun part => { part with use_lightmap := decide (v ≠ 0) })
      pure (m, some po2)
    else if w0 = ascii ("effect") then
      match po with
      | some (.dummy d _) =>
        (match words.get? 1 with
         | some w => .ok (m, some (.dummy d w))
         | none => .ok (m, po))
      | some (.part _ _ _ _) => .error (.generic
          ("Unexpected property for a model part on line " ++ Nat.repr n))
      | none => .error (.generic
          ("Unexpected property outside of an obj / point on line " ++ Nat.repr n))
    else if w0 = ascii ("type") then do
      let v ← parseArg parseU32 words 1
      match dummyAttachmentTypeFromU16 v with
      | some DummyAttachmentType.normal => do
        let po2 ← onDummy po n (fun d =>
          { d with attachment := some (ModelDummyAttachment.effect [] false) })
        pure (m, some po2)
      | some DummyAttachmentType.dayNight => do
        let po2 ← onDummy po n (fun d =>
          { d with attachment := some (ModelDummyAttachment.effect [] true) })
        pure (m, some po2)
      | some DummyAttachmentType.lightContainer => do
        let po2 ← onDummy po n (fun d =>
          { d with attachment := some (ModelDummyAttachment.light []) })
        pure (m, some po2)
      | none => pure (m, po)
    else .ok (m, po)

/-- The line loop of `Model::read`; the counter is incremented before each
line is processed, matching the source's 1-based line numbers. -/
def zscTextReadLoop (pf : Str → Option Nat) :
    Model → Option ParseObject → Nat → List Str → Except Err Model
  | m, po, _, [] => .ok (completeObject m po)
  | m, po, n, line :: rest => do
    let (m2, po2) ← processLine pf m po (n + 1) line
    zscTextReadLoop pf m2 po2 (n + 1) rest

/-- `Model::read` (zsc.rs:778), starting from `Model::default`. -/
def zscTextRead (pf : Str → Option Nat) (lines : List Str) : Except Err Model :=
  zscTextReadLoop pf Model.default none 0 lines

/-! ## StringTable::write key ordering (files/stl.rs:194)

`StringTable::write` collects the keys of the entry `HashMap` (arbitrary
iteration order) and sorts them with the stable `sort_by` under
`human_sort::compare`.  The `human_sort` crate is an external dependency not
vendored in the repository. -/

/-- An ASCII digit byte. -/
def isDigitByte (b : Nat) : Bool := 48 ≤ b && b ≤ 57

/-- Consume a leading run of ASCII digits, returning its numeric value and
the remaining bytes. -/
def numRun : List Nat → Nat → Nat × List Nat
  | [], acc => (acc, [])
  | b :: rest, acc =>
    if isDigitByte b then numRun rest (acc * 10 + (b - 48)) else (acc, b :: rest)

/-- Fueled natural comparison: digit runs compare by numeric value, other
bytes compare directly, the shorter string is smaller when one ends.  Each
step consumes at least one byte of each side, so combined length plus one is
always enough fuel. -/
def humanCmpF : Nat → List Nat → List Nat → Ordering
  | 0, _, _ => .eq
  | _ + 1, [], [] => .eq
  | _ + 1, [], _ :: _ => .lt
  | _ + 1, _ :: _, [] => .gt
  | fuel + 1, a :: as, b :: bs =>
    if isDigitByte a && isDigitByte b then
      let ra := numRun (a :: as) 0
      let rb := numRun (b :: bs) 0
      if ra.1 < rb.1 then .lt
      else if rb.1 < ra.1 then .gt
      else humanCmpF fuel ra.2 rb.2
    else if a < b then .lt
    else if b < a then .gt
    else humanCmpF fuel as bs

/-- Modelled from the spec: `human_sort::compare`, the human/natural string
ordering used by `StringTable::write` — "numeric runs compare by value, not
lexically"; two keys whose digit runs agree in value and whose other bytes
agree compare equal. -/
def humanCmp (x y : Str) : Ordering := humanCmpF (x.length + y.length + 1) x y

/-- The key ordering step of `StringTable::write` (stl.rs:194): the input
list is the `HashMap` key iteration order; it is sorted with Rust's stable
`sort_by` under `human_sort::compare`. -/
def stlWriteKeys (keys : List Str) : List Str := sortByStable humanCmp keys

/-! ## Concrete inputs used by the claim theorems -/

/-- A `ModelList` holding one model with a single material-less part — a
value in the image of `ModelList::read` (see `zscBytesNoMat`). -/
def zscNoMatValue : ModelList :=
  ⟨[some { Model.default with
      parts := [{ ModelPart.default with mesh_path := ascii ("m"), material := none }] }]⟩

/-- A binary ZSC stream decoding to `zscNoMatValue`: one pooled mesh, no
materials, no effects, one model with one part whose material index is the
negative sentinel. -/
def zscBytesNoMat : List Nat :=
  encU16 1 ++ encCString (ascii ("m")) ++ encU16 0 ++ encU16 0 ++ encU16 1 ++
  encU32 0 ++ encI32 0 ++ encI32 0 ++ encU16 1 ++
  encI16 0 ++ encI16 (-1) ++ [0] ++ encU16 0 ++
  encVec3F vec3Zero ++ encVec3F vec3Zero

/-- A single model with one material-less part (mesh path `a`), in the image
of the binary ZSC decoder (see `zscBytesTextModel`). -/
def textModel : Model :=
  { Model.default with
      parts := [{ ModelPart.default with mesh_path := ascii ("a"), material := none }] }

/-- A binary ZSC stream whose single model decodes to `textModel`. -/
def zscBytesTextModel : List Nat :=
  encU16 1 ++ encCString (ascii ("a")) ++ encU16 0 ++ encU16 0 ++ encU16 1 ++
  encU32 0 ++ encI32 0 ++ encI32 0 ++ encU16 1 ++
  encI16 0 ++ encI16 (-1) ++ [0] ++ encU16 0 ++
  encVec3F vec3Zero ++ encVec3F vec3Zero

/-- A `ModelList` with two parts: one carrying material `zscMatT`, one with
no material (for the C8 whole-file instance). -/
def zscMatT : ModelMaterial := { ModelMaterial.default with path := ascii ("t") }

/-- Two-part model list: part `a` has a material, part `b` has none. -/
def zscTwoPartValue : ModelList :=
  ⟨[some { Model.default with
      parts := [{ ModelPart.default with
                    mesh_path := ascii ("a")
                    material := some zscMatT },
                { ModelPart.default with
                    mesh_path := ascii ("b")
                    material := none }] }]⟩

/-- What `zscTwoPartValue` decodes back to after a write–read round trip:
the material-less part has silently acquired the pool's first material. -/
def zscTwoPartReread : ModelList :=
  ⟨[some { Model.default with
      parts := [{ ModelPart.default with
                    mesh_path := ascii ("a")
                    material := some zscMatT },
                { ModelPart.default with
                    mesh_path := ascii ("b")
                    material := some zscMatT }] }]⟩

/-- A ragged table: row 1 is shorter than row 0, so `cols()` (= 2) exceeds
row 1's length and `value(1, 1)` hits the panicking inner indexing. -/
def tRagged : DataTable :=
  { DataTable.default with data := [[ascii ("a"), ascii ("b")], [ascii ("c")]] }

/-- A regular one-row table (every row at least `cols()` long), used to
witness the accessor theorem. -/
def tSmall : DataTable :=
  { DataTable.default with data := [[ascii ("7"), ascii ("x")]] }

/-- A 3-row, 2-column, 2-header table whose cell (0,1) ends in a 0x00 byte
(the C5 counterexample input). -/
def tNulCell : DataTable :=
  { identifier := ascii ("STB1")
    header_row_height := 100
    header_row_name := ascii ("hdr")
    headers := [⟨ascii ("h0"), 10⟩, ⟨ascii ("h1"), 20⟩]
    data := [[ascii ("r0"), [65, 0]], [ascii ("r1"), ascii ("c1")],
             [ascii ("r2"), ascii ("c2")]]
    row_height := 40 }

/-! # Theorems

Helper lemmas first (shared across claims), then one theorem (plus witness
or counterexample where required) per claim. -/

/-- Reading one byte when the remaining stream is known. -/
theorem rU8_drop (data : List Nat) (pos b : Nat) (t : List Nat)
    (h : data.drop pos = b :: t) : rU8 ⟨data, pos⟩ = .ok (b, ⟨data, pos + 1⟩) := by
  have hg : data[pos]? = some b := by
    rw [← List.head?_drop, h]; rfl
  simp [rU8, hg]

/-- Dropping one more byte from a known remaining stream. -/
theorem drop_succ_of_drop (data : List Nat) (pos b : Nat) (t : List Nat)
    (h : data.drop pos = b :: t) : data.drop (pos + 1) = t := by
  rw [← List.drop_drop, h]
  rfl

/-- Dropping a known consumed block. -/
theorem drop_shift (data : List Nat) (pos : Nat) (x rest : List Nat)
    (h : data.drop pos = x ++ rest) : data.drop (pos + x.length) = rest := by
  rw [← List.drop_drop, h, List.drop_left]

/-- Dropping a known consumed block, with the target position given
explicitly. -/
theorem drop_shift' (data : List Nat) (pos k : Nat) (x rest : List Nat)
    (h : data.drop pos = x ++ rest) (hk : pos + x.length = k) :
    data.drop k = rest := by
  rw [← hk]
  exact drop_shift data pos x rest h

/-- Reading a little-endian u16 when the remaining stream is known. -/
theorem rU16_drop (data : List Nat) (pos b0 b1 : Nat) (t : List Nat)
    (h : data.drop pos = b0 :: b1 :: t) :
    rU16 ⟨data, pos⟩ = .ok (b0 + 256 * b1, ⟨data, pos + 2⟩) := by
  have h1 := rU8_drop data pos b0 (b1 :: t) h
  have h2 := rU8_drop data (pos + 1) b1 t (drop_succ_of_drop data pos b0 (b1 :: t) h)
  simp only [rU16, h1, h2, bind, Except.bind, pure, Except.pure, RState.mk.injEq,
    Prod.mk.injEq, Except.ok.injEq]

/-- Reading a little-endian u32 when the remaining stream is known. -/
theorem rU32_drop (data : List Nat) (pos b0 b1 b2 b3 : Nat) (t : List Nat)
    (h : data.drop pos = b0 :: b1 :: b2 :: b3 :: t) :
    rU32 ⟨data, pos⟩ =
      .ok (b0 + 256 * b1 + 65536 * b2 + 16777216 * b3, ⟨data, pos + 4⟩) := by
  have h1 := rU8_drop data pos b0 _ h
  have d1 := drop_succ_of_drop data pos b0 _ h
  have h2 := rU8_drop data (pos + 1) b1 _ d1
  have d2 := drop_succ_of_drop data (pos + 1) b1 _ d1
  have h3 := rU8_drop data (pos + 2) b2 _ d2
  have d3 := drop_succ_of_drop data (pos + 2) b2 _ d2
  have h4 := rU8_drop data (pos + 3) b3 _ d3
  simp only [rU32, h1, h2, h3, h4, bind, Except.bind, pure, Except.pure,
    RState.mk.injEq, Prod.mk.injEq, Except.ok.injEq]

/-- Reading back an encoded u16. -/
theorem rU16_enc (data : List Nat) (pos n : Nat) (rest : List Nat)
    (hn : n < 65536) (h : data.drop pos = encU16 n ++ rest) :
    rU16 ⟨data, pos⟩ = .ok (n, ⟨data, pos + 2⟩) := by
  have := rU16_drop data pos (n % 256) (n / 256 % 256) rest h
  rw [this]
  congr 1
  congr 1
  omega

/-- Reading back an encoded u32. -/
theorem rU32_enc (data : List Nat) (pos n : Nat) (rest : List Nat)
    (hn : n < 4294967296) (h : data.drop pos = encU32 n ++ rest) :
    rU32 ⟨data, pos⟩ = .ok (n, ⟨data, pos + 4⟩) := by
  have := rU32_drop data pos (n % 256) (n / 256 % 256) (n / 65536 % 256)
    (n / 16777216 % 256) rest h
  rw [this]
  congr 1
  congr 1
  omega

/-- Reading back an encoded i16. -/
theorem rI16_enc (data : List Nat) (pos : Nat) (i : Int) (rest : List Nat)
    (hlo : -32768 ≤ i) (hhi : i < 32768) (h : data.drop pos = encI16 i ++ rest) :
    rI16 ⟨data, pos⟩ = .ok (i, ⟨data, pos + 2⟩) := by
  have hn : (i % 65536).toNat < 65536 := by omega
  have := rU16_enc data pos (i % 65536).toNat rest hn h
  simp only [rI16, this, bind, Except.bind, pure, Except.pure, Except.ok.injEq,
    Prod.mk.injEq, RState.mk.injEq]
  constructor
  · split <;> omega
  · trivial

/-- Reading back an encoded i32. -/
theorem rI32_enc (data : List Nat) (pos : Nat) (i : Int) (rest : List Nat)
    (hlo : -2147483648 ≤ i) (hhi : i < 2147483648)
    (h : data.drop pos = encI32 i ++ rest) :
    rI32 ⟨data, pos⟩ = .ok (i, ⟨data, pos + 4⟩) := by
  have hn : (i % 4294967296).toNat < 4294967296 := by omega
  have := rU32_enc data pos (i % 4294967296).toNat rest hn h
  simp only [rI32, this, bind, Except.bind, pure, Except.pure, Except.ok.injEq,
    Prod.mk.injEq, RState.mk.injEq]
  constructor
  · split <;> omega
  · trivial

/-- Reading back an encoded bool16. -/
theorem rBool16_enc (data : List Nat) (pos : Nat) (b : Bool) (rest : List Nat)
    (h : data.drop pos = encBool16 b ++ rest) :
    rBool16 ⟨data, pos⟩ = .ok (b, ⟨data, pos + 2⟩) := by
  cases b with
  | false =>
    have h0 : data.drop pos = encU16 0 ++ rest := by simpa [encBool16] using h
    have h16 := rU16_enc data pos 0 rest (by omega) h0
    simp [rBool16, h16, bind, Except.bind, pure, Except.pure]
  | true =>
    have h1 : data.drop pos = encU16 1 ++ rest := by simpa [encBool16] using h
    have h16 := rU16_enc data pos 1 rest (by omega) h1
    simp [rBool16, h16, bind, Except.bind, pure, Except.pure]

/-- Reading back an encoded f32 pattern. -/
theorem rF32_enc (data : List Nat) (pos bits : Nat) (rest : List Nat)
    (hb : bits < 4294967296) (h : data.drop pos = encF32 bits ++ rest) :
    rF32 ⟨data, pos⟩ = .ok (bits, ⟨data, pos + 4⟩) :=
  rU32_enc data pos bits rest hb h

/-- `read_string` over exactly the bytes of a string that does not end in a
null: the string itself. -/
theorem rString_exact (data : List Nat) (pos : Nat) (s rest : List Nat)
    (hlast : s.getLast? ≠ some 0) (h : data.drop pos = s ++ rest) :
    rString s.length ⟨data, pos⟩ = .ok (s, ⟨data, pos + s.length⟩) := by
  simp only [rString, h, List.take_left]
  rw [if_neg hlast]

/-- `read_string` over exactly the bytes of a string that ends in a null:
the final null is stripped. -/
theorem rString_exact_null (data : List Nat) (pos : Nat) (s rest : List Nat)
    (hlast : s.getLast? = some 0) (h : data.drop pos = s ++ rest) :
    rString s.length ⟨data, pos⟩ = .ok (s.dropLast, ⟨data, pos + s.length⟩) := by
  simp only [rString, h, List.take_left]
  rw [if_pos hlast]

/-- Reading back `write_string_u16` output for a string shorter than 2^16
bytes not ending in a null byte. -/
theorem rStringU16_enc (data : List Nat) (pos : Nat) (s rest : List Nat)
    (hlen : s.length < 65536) (hlast : s.getLast? ≠ some 0)
    (h : data.drop pos = encStringU16 s ++ rest) :
    rStringU16 ⟨data, pos⟩ = .ok (s, ⟨data, pos + 2 + s.length⟩) := by
  rw [encStringU16, List.append_assoc] at h
  have h16 := rU16_enc data pos s.length (s ++ rest) hlen h
  have hd : data.drop (pos + 2) = s ++ rest := by
    have := drop_shift data pos (encU16 s.length) (s ++ rest) h
    simpa [encU16] using this
  have hs := rString_exact data (pos + 2) s rest hlast hd
  simp only [rStringU16, h16, hs, bind, Except.bind]

/-- Reading back `write_string_u16` output for a null-terminated string:
the stored length is kept but the final null is stripped. -/
theorem rStringU16_enc_null (data : List Nat) (pos : Nat) (s rest : List Nat)
    (hlen : s.length < 65536) (hlast : s.getLast? = some 0)
    (h : data.drop pos = encStringU16 s ++ rest) :
    rStringU16 ⟨data, pos⟩ = .ok (s.dropLast, ⟨data, pos + 2 + s.length⟩) := by
  rw [encStringU16, List.append_assoc] at h
  have h16 := rU16_enc data pos s.length (s ++ rest) hlen h
  have hd : data.drop (pos + 2) = s ++ rest := by
    have := drop_shift data pos (encU16 s.length) (s ++ rest) h
    simpa [encU16] using this
  have hs := rString_exact_null data (pos + 2) s rest hlast hd
  simp only [rStringU16, h16, hs, bind, Except.bind]

/-- `takeWhile` over a block of satisfying bytes followed by a failing one. -/
theorem takeWhile_block (p : Nat → Bool) (s : List Nat) (c : Nat)
    (t : List Nat) (hs : ∀ b ∈ s, p b = true) (hc : p c = false) :
    (s ++ c :: t).takeWhile p = s := by
  induction s with
  | nil => simp [List.takeWhile, hc]
  | cons a s ih =>
    have ha : p a = true := hs a (List.mem_cons_self a s)
    simp only [List.cons_append, List.takeWhile, ha]
    exact congrArg (fun l => a :: l) (ih (fun b hb => hs b (List.mem_cons_of_mem a hb)))

/-- Reading back `write_cstring` output for a string without interior null
bytes. -/
theorem rCString_enc (data : List Nat) (pos : Nat) (s rest : List Nat)
    (hz : ∀ b ∈ s, b ≠ 0) (h : data.drop pos = encCString s ++ rest) :
    rCString ⟨data, pos⟩ = .ok (s, ⟨data, pos + s.length + 1⟩) := by
  have h' : data.drop pos = s ++ 0 :: rest := by
    simpa [encCString] using h
  have htw : (s ++ 0 :: rest).takeWhile (fun b => decide (b ≠ 0)) = s :=
    takeWhile_block _ s 0 rest (fun b hb => by simpa using hz b hb) (by simp)
  simp only [rCString, h', htw]
  rw [if_pos (by simp)]

/-- A list whose last element is known splits as its front plus that
element. -/
theorem dropLast_append_of_getLast? (l : List Nat) (a : Nat)
    (h : l.getLast? = some a) : l.dropLast ++ [a] = l := by
  induction l with
  | nil => simp at h
  | cons x l ih =>
    cases l with
    | nil =>
      simp only [List.getLast?_singleton, Option.some.injEq] at h
      simp [h]
    | cons y l =>
      rw [List.getLast?_cons_cons] at h
      simpa using ih h

/-- `Ordering` helper: the two tie orders of `a1`/`a01` under the natural
comparison. -/
theorem humanCmp_tie : humanCmp (ascii ("a1")) (ascii ("a01")) = .eq := by decide

/-- C6 — corrected.  `write_string_varbyte` emits a one-byte prefix exactly
when the string is shorter than 128 bytes and otherwise the two bytes
`len % 128 + 128` (the low seven bits with the continuation bit) and
`len >> 7`; for strings shorter than 32768 bytes that do not end in a
0x00 byte, `read_string_varbyte` decodes either form back to the original
string.  (As stated, the claim fails for strings ending in 0x00 — the read
side strips one terminating null — and for lengths of 2^15 or more, where
the second prefix byte truncates.) -/
theorem c6_varbyte (s rest data : List Nat) (pos : Nat)
    (hlen : s.length < 32768) (hlast : s.getLast? ≠ some 0)
    (h : data.drop pos = encStringVarbyte s ++ rest) :
    (s.length < 128 → encStringVarbyte s = s.length :: s) ∧
    (128 ≤ s.length →
      encStringVarbyte s = (s.length % 128 + 128) :: (s.length / 128) :: s) ∧
    rStringVarbyte ⟨data, pos⟩ =
      .ok (s, ⟨data, pos + (encStringVarbyte s).length⟩) := by
  refine ⟨fun hc => by simp [encStringVarbyte, hc], fun hc => ?_, ?_⟩
  · have hdiv : s.length / 128 % 256 = s.length / 128 := by omega
    simp [encStringVarbyte, Nat.not_lt.mpr hc, hdiv]
  · by_cases hc : s.length < 128
    · have hp : pos + (encStringVarbyte s).length = pos + 1 + s.length := by
        simp only [encStringVarbyte, if_pos hc, List.length_append,
          List.length_cons, List.length_nil]
        omega
      rw [hp]
      rw [encStringVarbyte, if_pos hc] at h
      simp only [List.cons_append, List.nil_append] at h
      have h1 := rU8_drop data pos s.length (s ++ rest) h
      have hd := drop_succ_of_drop data pos s.length (s ++ rest) h
      have hs := rString_exact data (pos + 1) s rest hlast hd
      simp only [rStringVarbyte, h1, bind, Except.bind, if_pos hc, hs]
    · have hp : pos + (encStringVarbyte s).length = pos + 2 + s.length := by
        simp only [encStringVarbyte, if_neg hc, List.length_append,
          List.length_cons, List.length_nil]
        omega
      rw [hp]
      rw [encStringVarbyte, if_neg hc] at h
      simp only [List.cons_append, List.nil_append] at h
      have h1 := rU8_drop data pos (s.length % 128 + 128)
        (s.length / 128 % 256 :: (s ++ rest)) h
      have hd := drop_succ_of_drop data pos _ _ h
      have h2 := rU8_drop data (pos + 1) (s.length / 128 % 256) (s ++ rest) hd
      have hd2 := drop_succ_of_drop data (pos + 1) _ _ hd
      have hlenEq : s.length / 128 % 256 * 128 + (s.length % 128 + 128 - 128) =
          s.length := by omega
      have hs := rString_exact data (pos + 2) s rest hlast hd2
      simp only [rStringVarbyte, h1, bind, Except.bind]
      rw [if_neg (by omega)]
      simp only [h2, bind, Except.bind, hlenEq, hs]

set_option maxRecDepth 4000 in
/-- Witness for `c6_varbyte` at the 128-byte boundary string. -/
theorem c6_varbyte_witness :
    (List.replicate 128 97).length < 32768 ∧
    (128 ≤ (List.replicate 128 97).length →
      encStringVarbyte (List.replicate 128 97) =
        ((List.replicate 128 97).length % 128 + 128) ::
          ((List.replicate 128 97).length / 128) :: List.replicate 128 97) ∧
    rStringVarbyte ⟨encStringVarbyte (List.replicate 128 97), 0⟩ =
      .ok (List.replicate 128 97,
        ⟨encStringVarbyte (List.replicate 128 97),
         0 + (encStringVarbyte (List.replicate 128 97)).length⟩) := by
  have H := c6_varbyte (List.replicate 128 97) []
    (encStringVarbyte (List.replicate 128 97)) 0 (by decide) (by decide) (by simp)
  exact ⟨by decide, H.2.1, H.2.2⟩

/-- C6 counterexample: the one-byte string `"\x00"` does not decode back to
itself — the read strips the trailing null. -/
theorem c6_counterexample :
    (rStringVarbyte ⟨encStringVarbyte [0], 0⟩).map Prod.fst ≠ .ok [0] := by
  decide

/-- C9 — corrected.  `read_string(n)` removes at most one trailing 0x00 byte
from the payload it takes; consequently `read_string_u16` after
`write_string_u16` returns the original string when it does not end in a
null byte, and the string minus exactly its final null when it does — in
both cases provided the string is shorter than 2^16 bytes, since the u16
length prefix truncates mod 2^16 (the restriction the original claim
lacks). -/
theorem c9_read_string_strip (n : Nat) (st : RState) (s2 : Str) (st2 : RState)
    (data : List Nat) (pos : Nat) (s rest : List Nat)
    (hlen : s.length < 65536)
    (hr : rString n st = .ok (s2, st2))
    (h : data.drop pos = encStringU16 s ++ rest) :
    ((st.data.drop st.pos).take n = s2 ∨
      (st.data.drop st.pos).take n = s2 ++ [0]) ∧
    (s.getLast? ≠ some 0 →
      rStringU16 ⟨data, pos⟩ = .ok (s, ⟨data, pos + 2 + s.length⟩)) ∧
    (s.getLast? = some 0 →
      rStringU16 ⟨data, pos⟩ = .ok (s.dropLast, ⟨data, pos + 2 + s.length⟩)) := by
  refine ⟨?_, fun hl => rStringU16_enc data pos s rest hlen hl h,
    fun hl => rStringU16_enc_null data pos s rest hlen hl h⟩
  simp only [rString, Except.ok.injEq, Prod.mk.injEq] at hr
  by_cases hl : ((st.data.drop st.pos).take n).getLast? = some 0
  · right
    rw [if_pos hl] at hr
    rw [← hr.1]
    exact (dropLast_append_of_getLast? _ 0 hl).symm
  · left
    rw [if_neg hl] at hr
    exact hr.1

/-- Witness for `c9_read_string_strip`: the two-byte payload `"A\x00"` loses
its null, and the string `"B"` round-trips. -/
theorem c9_read_string_strip_witness :
    (([65, 0] : List Nat).take 2 = [65] ∨ ([65, 0] : List Nat).take 2 = [65] ++ [0]) ∧
    rStringU16 ⟨encStringU16 [66], 0⟩ = .ok ([66], ⟨encStringU16 [66], 0 + 2 + 1⟩) := by
  have H := c9_read_string_strip 2 ⟨[65, 0], 0⟩ [65] ⟨[65, 0], 2⟩
    (encStringU16 [66]) 0 [66] [] (by decide) (by decide) (by simp)
  exact ⟨H.1, by simpa using H.2.1 (by decide)⟩

/-- A u16-length-prefixed write of a string of exactly 2^16 bytes reads
back empty: the length prefix wraps to 0. -/
theorem rStringU16_wrap (s : List Nat) (h : s.length = 65536) :
    (rStringU16 ⟨encStringU16 s, 0⟩).map Prod.fst = .ok [] := by
  have henc : encStringU16 s = 0 :: 0 :: s := by
    rw [encStringU16, encU16, h]
    norm_num
  have h16 := rU16_drop (encStringU16 s) 0 0 0 s (by rw [List.drop_zero, henc])
  norm_num at h16
  have hs : rString 0 ⟨encStringU16 s, 2⟩ = .ok ([], ⟨encStringU16 s, 2⟩) := by
    simp [rString]
  simp only [rStringU16, h16, bind, Except.bind, hs, Except.map]

/-- C9 counterexample: a 65536-byte string (not ending in 0x00) does not
round-trip through the u16-length-prefixed form — the length prefix wraps
to 0 and the read returns the empty string. -/
theorem c9_counterexample :
    (rStringU16 ⟨encStringU16 (List.replicate 65536 49), 0⟩).map Prod.fst ≠
      .ok (List.replicate 65536 49) := by
  intro hcontra
  have hwrap := rStringU16_wrap (List.replicate 65536 49)
    (List.length_replicate 65536 49)
  have htrans := hwrap.symm.trans hcontra
  injection htrans with hlist
  have hlen := congrArg List.length hlist
  rw [List.length_nil, List.length_replicate] at hlen
  omega

/-- C10 — corrected.  For a table whose rows all have at least `cols()`
cells, `value(row, col)` returns `None` exactly when `row ≥ rows()` or
`col ≥ cols()` and `Some` of the cell otherwise, `get` returns the empty
string in the out-of-range case, and `get_int` returns 0 out of range or
when the cell does not parse as an `i32`; none of the accessors can fail.
(As stated over *every* table the claim is false: with ragged rows the
bounds check passes but the inner `data[row][col]` indexing panics — see
the counterexample.) -/
theorem c10_accessors (t : DataTable) (row col : Nat)
    (hreg : ∀ r ∈ t.data, t.cols ≤ r.length) :
    ((t.rows ≤ row ∨ t.cols ≤ col) →
      t.value row col = .ok none ∧ t.get row col = .ok [] ∧
        t.get_int row col = .ok 0) ∧
    (row < t.rows → col < t.cols →
      ∃ s, t.value row col = .ok (some s) ∧ t.get row col = .ok s ∧
        t.get_int row col = .ok ((parseI32 s).getD 0)) := by
  constructor
  · intro hoob
    have hcond : ¬ (row < t.rows ∧ col < t.cols) := by
      rcases hoob with h | h <;> omega
    have hv : t.value row col = .ok none := by
      simp only [DataTable.value, if_neg hcond]
    have hpi : parseI32 ([] : Str) = none := by decide
    refine ⟨hv, ?_, ?_⟩
    · simp [DataTable.get, hv, bind, Except.bind, pure, Except.pure]
    · simp [DataTable.get_int, DataTable.value_as_int, hv, bind, Except.bind,
        pure, Except.pure, hpi]
  · intro hr hc
    have hr' : row < t.data.length := hr
    have hrow : t.data.get? row = some (t.data.get ⟨row, hr'⟩) := by
      rw [List.get?_eq_getElem?]
      exact List.getElem?_eq_getElem hr'
    have hmem : t.data.get ⟨row, hr'⟩ ∈ t.data := t.data.get_mem _ _
    have hclen : col < (t.data.get ⟨row, hr'⟩).length :=
      Nat.lt_of_lt_of_le hc (hreg _ hmem)
    have hcell : (t.data.get ⟨row, hr'⟩).get? col =
        some ((t.data.get ⟨row, hr'⟩).get ⟨col, hclen⟩) := by
      rw [List.get?_eq_getElem?]
      exact List.getElem?_eq_getElem hclen
    have hv : t.value row col =
        .ok (some ((t.data.get ⟨row, hr'⟩).get ⟨col, hclen⟩)) := by
      simp only [DataTable.value, if_pos (And.intro hr hc), hrow, Option.bind,
        hcell]
    refine ⟨_, hv, ?_, ?_⟩
    · simp [DataTable.get, hv, bind, Except.bind, pure, Except.pure]
    · simp [DataTable.get_int, DataTable.value_as_int, hv, bind, Except.bind,
        pure, Except.pure]

/-- Witness for `c10_accessors` on a regular table, in and out of range. -/
theorem c10_accessors_witness :
    (∃ s, tSmall.value 0 0 = .ok (some s) ∧ tSmall.get 0 0 = .ok s ∧
      tSmall.get_int 0 0 = .ok ((parseI32 s).getD 0)) ∧
    (tSmall.value 5 0 = .ok none ∧ tSmall.get 5 0 = .ok [] ∧
      tSmall.get_int 5 0 = .ok 0) :=
  ⟨(c10_accessors tSmall 0 0 (by decide)).2 (by decide) (by decide),
   (c10_accessors tSmall 5 0 (by decide)).1 (by decide)⟩

/-- C10 counterexample: the bounds check passes at (1, 1) of the ragged
table but the inner indexing panics, so `value` does not return `Some` of a
cell there. -/
theorem c10_counterexample :
    1 < tRagged.rows ∧ 1 < tRagged.cols ∧
      tRagged.value 1 1 = .error .panic := by decide

/-- C7 — corrected.  Every iteration order of the key set
`{"item2", "item10", "item1"}` is written in the natural order
`["item1", "item2", "item10"]` (digit runs compare by numeric value, not
lexically).  The ordering is *not* deterministic for every key set — see
the counterexample. -/
theorem c7_natural_sort_keys :
    stlWriteKeys [ascii ("item2"), ascii ("item10"), ascii ("item1")] =
      [ascii ("item1"), ascii ("item2"), ascii ("item10")] ∧
    stlWriteKeys [ascii ("item2"), ascii ("item1"), ascii ("item10")] =
      [ascii ("item1"), ascii ("item2"), ascii ("item10")] ∧
    stlWriteKeys [ascii ("item10"), ascii ("item2"), ascii ("item1")] =
      [ascii ("item1"), ascii ("item2"), ascii ("item10")] ∧
    stlWriteKeys [ascii ("item10"), ascii ("item1"), ascii ("item2")] =
      [ascii ("item1"), ascii ("item2"), ascii ("item10")] ∧
    stlWriteKeys [ascii ("item1"), ascii ("item2"), ascii ("item10")] =
      [ascii ("item1"), ascii ("item2"), ascii ("item10")] ∧
    stlWriteKeys [ascii ("item1"), ascii ("item10"), ascii ("item2")] =
      [ascii ("item1"), ascii ("item2"), ascii ("item10")] := by
  decide

/-- C7 counterexample: the distinct keys `a1` and `a01` compare equal under
the natural ordering (`humanCmp_tie`), so the stable sort leaves them in
hash-map iteration order — the two iteration orders of the same key set
produce different outputs, refuting "deterministic for every key set". -/
theorem c7_counterexample :
    stlWriteKeys [ascii ("a1"), ascii ("a01")] ≠
      stlWriteKeys [ascii ("a01"), ascii ("a1")] := by
  decide

/-- Reading an i32 from four known bytes (value left as its two's-complement
decode expression). -/
theorem rI32_drop (data : List Nat) (pos b0 b1 b2 b3 : Nat) (t : List Nat)
    (h : data.drop pos = b0 :: b1 :: b2 :: b3 :: t) :
    rI32 ⟨data, pos⟩ = .ok
      (let n := b0 + 256 * b1 + 65536 * b2 + 16777216 * b3
       if n < 2147483648 then (n : Int) else (n : Int) - 4294967296,
       ⟨data, pos + 4⟩) := by
  have h32 := rU32_drop data pos b0 b1 b2 b3 t h
  simp only [rI32, h32, bind, Except.bind, pure, Except.pure]

/-- One step of the dummy-point property loop on a recognized tag that has
no dummy-point handler: it is skipped by its declared size. -/
theorem readDummyProps_skip (fuel : Nat) (dp : ModelDummyPoint)
    (data : List Nat) (pos t size : Nat) (b : List Nat)
    (hd : data.drop pos = t :: size :: b)
    (ht : t ∈ [4, 5, 6, 8, 29, 30, 31, 32]) :
    readDummyProps (fuel + 1) dp ⟨data, pos⟩ =
      readDummyProps fuel dp ⟨data, pos + 2 + size⟩ := by
  have h1 := rU8_drop data pos t _ hd
  have hd1 := drop_succ_of_drop data pos t _ hd
  have h2 := rU8_drop data (pos + 1) size _ hd1
  fin_cases ht <;>
    · simp only [readDummyProps, h1, bind, Except.bind, modelPropertyFromU8]
      rw [if_neg (by decide)]
      simp only [h2, bind, Except.bind, rSeekCur]

/-- C3 — corrected.  A tag byte that is not a `ModelProperty` at all fails
the read in a part property stream — and, contrary to the claim, in a
dummy-point property stream as well (both loops reject it with the same
"Invalid part property" error).  The asymmetry the format actually has is
over *recognized* properties with no dummy-point handler (AxisRotation,
BoneIndex, DummyIndex, Animation, Collision, AnimationPath, Range,
UseLightmap): in a dummy-point stream these are silently skipped by seeking
forward their declared size byte and decoding continues, while in a part
stream the recognized Animation tag (byte 8) is a hard decode error. -/
theorem c3_unknown_tag_asymmetry (t1 t2 size size3 fuel1 fuel2 fuel3 : Nat)
    (part : ModelPart) (dp : ModelDummyPoint)
    (data1 data2 data3 : List Nat) (pos1 pos2 pos3 : Nat)
    (b1 b2 b3 : List Nat)
    (h1tag : modelPropertyFromU8 t1 = none)
    (h2tag : t2 ∈ [4, 5, 6, 8, 29, 30, 31, 32])
    (hd1 : data1.drop pos1 = t1 :: b1)
    (hd2 : data2.drop pos2 = t2 :: size :: b2)
    (hd3 : data3.drop pos3 = 8 :: size3 :: b3) :
    readPartProps (fuel1 + 1) part ⟨data1, pos1⟩ =
      .error (.generic ("Invalid part property " ++ Nat.repr t1)) ∧
    readDummyProps (fuel1 + 1) dp ⟨data1, pos1⟩ =
      .error (.generic ("Invalid part property " ++ Nat.repr t1)) ∧
    readDummyProps (fuel2 + 1) dp ⟨data2, pos2⟩ =
      readDummyProps fuel2 dp ⟨data2, pos2 + 2 + size⟩ ∧
    readPartProps (fuel3 + 1) part ⟨data3, pos3⟩ =
      .error (.generic
        ("Animation scene object property found but no handler.")) := by
  have h1 := rU8_drop data1 pos1 t1 b1 hd1
  refine ⟨?_, ?_, ?_, ?_⟩
  · simp only [readPartProps, h1, bind, Except.bind, h1tag]
  · simp only [readDummyProps, h1, bind, Except.bind, h1tag]
  · exact readDummyProps_skip fuel2 dp data2 pos2 t2 size b2 hd2 h2tag
  · have h8 := rU8_drop data3 pos3 8 _ hd3
    have hd8 := drop_succ_of_drop data3 pos3 8 _ hd3
    have hs := rU8_drop data3 (pos3 + 1) size3 _ hd8
    simp only [readPartProps, h8, bind, Except.bind, modelPropertyFromU8]
    rw [if_neg (by decide)]
    simp only [hs, bind, Except.bind]

/-- Witness for `c3_unknown_tag_asymmetry`: tag 9 is invalid, tag 5
(BoneIndex) is skipped in a dummy stream, and tag 8 (Animation) hard-errors
in a part stream. -/
theorem c3_unknown_tag_asymmetry_witness :
    readPartProps 3 ModelPart.default ⟨[9, 0, 0], 0⟩ =
      .error (.generic ("Invalid part property " ++ Nat.repr 9)) ∧
    readDummyProps 3 ModelDummyPoint.default ⟨[5, 2, 7, 7, 0], 0⟩ =
      readDummyProps 2 ModelDummyPoint.default ⟨[5, 2, 7, 7, 0], 0 + 2 + 2⟩ ∧
    readPartProps 3 ModelPart.default ⟨[8, 2, 0, 0], 0⟩ =
      .error (.generic
        ("Animation scene object property found but no handler.")) := by
  have H := c3_unknown_tag_asymmetry 9 5 2 2 2 2 2 ModelPart.default
    ModelDummyPoint.default [9, 0, 0] [5, 2, 7, 7, 0] [8, 2, 0, 0] 0 0 0
    [0, 0] [7, 7, 0] [0, 0]
    (by decide) (by decide) (by decide) (by decide) (by decide)
  exact ⟨H.1, H.2.2.1, H.2.2.2⟩

/-- C3 counterexample: the claim says an unrecognized tag byte in a
dummy-point property stream is skipped and decoding continues; tag byte 9
(not a `ModelProperty`) makes the dummy-point loop fail instead. -/
theorem c3_counterexample :
    readDummyProps 3 ModelDummyPoint.default ⟨[9, 0, 0], 0⟩ =
      .error (.generic ("Invalid part property 9")) := by
  decide

/-- C4 — confirmed.  A model record whose on-disk part count field is 0
decodes to an absent model (`none`), not to a model with zero parts,
consuming exactly its 14-byte header; and the writer encodes a `none` hole
as a zeroed model header followed by a part count of 0 — 14 zero bytes, no
part or dummy-point data. -/
theorem c4_model_hole (meshes : List Str) (materials : List ModelMaterial)
    (effects : List Str) (meshPool : List Str) (matPool : List ModelMaterial)
    (effectPool : List Str) (data : List Nat) (pos : Nat)
    (c0 c1 c2 c3 c4 c5 c6 c7 c8 c9 c10 c11 : Nat) (rest : List Nat)
    (hd : data.drop pos = c0 :: c1 :: c2 :: c3 :: c4 :: c5 :: c6 :: c7 :: c8 ::
      c9 :: c10 :: c11 :: 0 :: 0 :: rest) :
    readModelEntry meshes materials effects ⟨data, pos⟩ =
      .ok (none, ⟨data, pos + 14⟩) ∧
    writeModelEntryBytes meshPool matPool effectPool none =
      .ok (List.replicate 14 0) := by
  constructor
  · have h32 := rU32_drop data pos c0 c1 c2 c3 _ hd
    have hd4 : data.drop (pos + 4) = c4 :: c5 :: c6 :: c7 :: c8 :: c9 :: c10 ::
        c11 :: 0 :: 0 :: rest := by
      have := drop_shift data pos [c0, c1, c2, c3] _ (by simpa using hd)
      simpa using this
    have hx := rI32_drop data (pos + 4) c4 c5 c6 c7 _ hd4
    have hd8 : data.drop (pos + 4 + 4) = c8 :: c9 :: c10 :: c11 :: 0 :: 0 ::
        rest := by
      have := drop_shift data (pos + 4) [c4, c5, c6, c7] _ (by simpa using hd4)
      simpa using this
    have hy := rI32_drop data (pos + 4 + 4) c8 c9 c10 c11 _ hd8
    have hd12 : data.drop (pos + 4 + 4 + 4) = 0 :: 0 :: rest := by
      have := drop_shift data (pos + 4 + 4) [c8, c9, c10, c11] _
        (by simpa using hd8)
      simpa using this
    have h16 := rU16_drop data (pos + 4 + 4 + 4) 0 0 rest hd12
    norm_num at h16
    simp only [readModelEntry, h32, bind, Except.bind, rVec2I, hx, hy, pure,
      Except.pure, h16]
    rw [if_pos trivial]
  · rfl

/-- Witness for `c4_model_hole` on a concrete 14-zero-byte record. -/
theorem c4_model_hole_witness :
    readModelEntry [] [] [] ⟨List.replicate 14 0, 0⟩ =
      .ok (none, ⟨List.replicate 14 0, 0 + 14⟩) ∧
    writeModelEntryBytes [] [] [] none = .ok (List.replicate 14 0) :=
  c4_model_hole [] [] [] [] [] [] (List.replicate 14 0) 0
    0 0 0 0 0 0 0 0 0 0 0 0 [] (by decide)

/-- C8 — confirmed.  `ModelList::write` encodes a part with no material
with material-pool index 0 — byte-identical to a reference to the first
pooled material — rather than a negative sentinel; on the read side a
material index of 0 yields the pool's first material, or a panic when the
pool is empty, so a material-less part never round-trips back to
`material = none` (concretely: `zscTwoPartValue` re-reads as
`zscTwoPartReread`, whose second part has gained the first material). -/
theorem c8_material_none_writes_zero
    (meshPool : List Str) (matPool : List ModelMaterial) (part : ModelPart)
    (meshIdx : Nat) (meshes : List Str) (mats : List ModelMaterial)
    (m0 : ModelMaterial) (data : List Nat) (pos : Nat) (k : Int)
    (rest : List Nat)
    (hmat : part.material = none)
    (hpool : poolIdx meshPool part.mesh_path = .ok meshIdx)
    (hk0 : 0 ≤ k) (hk1 : k < 32768) (hkm : k.toNat < meshes.length)
    (hd : data.drop pos = encI16 k ++ (encI16 0 ++ rest)) :
    writePartBytes meshPool matPool part =
      .ok (encU16 meshIdx ++ encU16 0 ++ partPropsBytes part) ∧
    readPartEntry meshes [] ⟨data, pos⟩ = .error .panic ∧
    readPartEntry meshes (m0 :: mats) ⟨data, pos⟩ =
      readPartProps (data.length + 1)
        { ModelPart.default with
            mesh_path := meshes.get ⟨k.toNat, hkm⟩
            material := some m0 }
        ⟨data, pos + 2 + 2⟩ ∧
    (zscWrite zscTwoPartValue).bind zscRead = .ok zscTwoPartReread ∧
    zscTwoPartReread ≠ zscTwoPartValue := by
  have hi1 := rI16_enc data pos k (encI16 0 ++ rest) (by omega) hk1 hd
  have hd2 : data.drop (pos + 2) = encI16 0 ++ rest := by
    have := drop_shift data pos (encI16 k) (encI16 0 ++ rest) hd
    simpa [encI16, encU16] using this
  have hi2 := rI16_enc data (pos + 2) 0 rest (by omega) (by omega) hd2
  refine ⟨?_, ?_, ?_, by decide, by decide⟩
  · simp only [writePartBytes, hpool, hmat, bind, Except.bind, pure, Except.pure]
  · simp only [readPartEntry, hi1, hi2, bind, Except.bind]
    rw [dif_pos ⟨hk0, hkm⟩]
    simp only [bind, Except.bind, pure, Except.pure]
    rw [if_pos (by omega)]
    simp [List.get?]
  · simp only [readPartEntry, hi1, hi2, bind, Except.bind]
    rw [dif_pos ⟨hk0, hkm⟩]
    simp only [bind, Except.bind, pure, Except.pure]
    rw [if_pos (by omega)]
    simp [List.get?, Int.toNat_zero]

/-- Witness for `c8_material_none_writes_zero` on a one-entry pool and a
concrete header stream. -/
theorem c8_material_none_writes_zero_witness :
    writePartBytes [ascii ("m")] []
      { ModelPart.default with mesh_path := ascii ("m"), material := none } =
      .ok (encU16 0 ++ encU16 0 ++ partPropsBytes
        { ModelPart.default with mesh_path := ascii ("m"), material := none }) ∧
    readPartEntry [ascii ("m")] [] ⟨[0, 0, 0, 0, 0], 0⟩ = .error .panic := by
  have H := c8_material_none_writes_zero [ascii ("m")] []
    { ModelPart.default with mesh_path := ascii ("m"), material := none }
    0 [ascii ("m")] [] ModelMaterial.default [0, 0, 0, 0, 0] 0 0 [0]
    (by decide) (by decide) (by decide) (by decide) (by decide) (by decide)
  exact ⟨H.1, H.2.1⟩

/-- C1 — the round-trip identity fails on the code: `zscNoMatValue` is a
valid decoded value (it is what `zscBytesNoMat` decodes to), its single
part has `material = none`, yet writing it and reading the result back
fails — the writer emits material-pool index 0 for the absent material and
an empty material pool, and the reader then indexes `materials[0]` out of
bounds. -/
theorem c1_roundtrip_material_none_fails :
    zscRead zscBytesNoMat = .ok zscNoMatValue ∧
    (zscWrite zscNoMatValue).bind zscRead = .error .panic := by
  constructor
  · decide
  · decide

/-- C2 — the text round trip fails on the code: `textModel` is decodable
from the binary codec (`zscBytesTextModel`), but for every float formatter
and float parser, `Model::write` (text) followed by `Model::read` (text)
fails at line 4 — the writer emits `part N` block headers while the reader
only opens a part block on the `obj` keyword, so the following `mesh` line
arrives outside any block. -/
theorem c2_text_roundtrip_fails (fmt : Nat → Str) (pf : Str → Option Nat) :
    zscRead zscBytesTextModel = .ok ⟨[some textModel]⟩ ∧
    zscTextRead pf (zscTextWrite fmt textModel) =
      .error (.generic ("Unexpected property outside of an obj / point on line 4")) := by
  exact ⟨by decide, rfl⟩

/-- `write_string(s, n)` always yields exactly `n` bytes. -/
@[simp] theorem encFixedString_length (s : Str) (n : Nat) :
    (encFixedString s n).length = n := by
  simp [encFixedString]
  rw [Nat.min_def]
  split <;> omega

/-- A u16-prefixed string occupies `2 + length` bytes. -/
@[simp] theorem encStringU16_length (s : Str) :
    (encStringU16 s).length = 2 + s.length := by
  simp [encStringU16, encU16]
  omega

/-- A u16 occupies 2 bytes. -/
@[simp] theorem encU16_length (n : Nat) : (encU16 n).length = 2 := rfl

/-- A u32 occupies 4 bytes. -/
@[simp] theorem encU32_length (n : Nat) : (encU32 n).length = 4 := rfl

/-- Patching the offset placeholder replaces exactly its four bytes. -/
theorem patchAt_header (A C bs : List Nat) (hA : A.length = 4)
    (hbs : bs.length = 4) :
    patchAt (A ++ (encU32 0 ++ C)) 4 bs = A ++ (bs ++ C) := by
  unfold patchAt
  rw [List.take_left' hA, hbs]
  rw [show A ++ (encU32 0 ++ C) = (A ++ encU32 0) ++ C from by
    simp [List.append_assoc]]
  rw [List.drop_left' (by simp [hA])]
  simp [List.append_assoc]

/-- `DataTable::write` on a 3-row, 2-column, 2-header table: the produced
stream, with the patched offset pointing at the bulk cells. -/
theorem stbWrite_3x2 (ident hrn h0n h1n r0 c0 r1 c1 r2 c2 : Str)
    (h0w h1w hrh rh : Nat) :
    stbWrite ⟨ident, hrh, hrn, [⟨h0n, h0w⟩, ⟨h1n, h1w⟩],
      [[r0, c0], [r1, c1], [r2, c2]], rh⟩ =
    .ok (encFixedString ident 4 ++
      (encU32 (38 + (h0n.length + (h1n.length + (hrn.length +
        (r0.length + (r1.length + r2.length)))))) ++
      (encU32 4 ++ (encU32 2 ++ (encU32 rh ++ (encU16 hrh ++
      (encU16 h0w ++ (encU16 h1w ++
      (encStringU16 h0n ++ (encStringU16 h1n ++ (encStringU16 hrn ++
      (encStringU16 r0 ++ (encStringU16 r1 ++ (encStringU16 r2 ++
      (encStringU16 c0 ++ (encStringU16 c1 ++ encStringU16 c2)))))))))))))))) := by
  simp only [stbWrite, List.foldl, List.foldlM, List.head?, bind, Except.bind,
    pure, Except.pure, List.drop_one, List.tail, List.length_cons,
    List.length_nil, List.length_append, encFixedString_length,
    encStringU16_length, encU16_length, encU32_length]
  simp only [List.append_assoc]
  rw [patchAt_header _ _ _ (encFixedString_length ident 4) (by simp)]
  congr 4
  omega

/-- `DataTable::get` depends only on the `data` field. -/
theorem DataTable.get_congr_data (t1 t2 : DataTable) (h : t1.data = t2.data)
    (row col : Nat) : t1.get row col = t2.get row col := by
  simp only [DataTable.get, DataTable.value, DataTable.rows, DataTable.cols, h]

/-- `DataTable::read` on the stream `DataTable::write` produces for a 3-row,
2-column table: the identifier comes back null-stripped, the u16 header
fields come back reduced mod 2^16, and every name and cell comes back
exactly (given the stated length and no-trailing-null restrictions). -/
theorem stbRead_3x2 (W : List Nat) (ident hrn h0n h1n r0 c0 r1 c1 r2 c2 : Str)
    (h0w h1w hrh rh : Nat)
    (hL1 : h0n.length < 65536) (hN1 : h0n.getLast? ≠ some 0)
    (hL2 : h1n.length < 65536) (hN2 : h1n.getLast? ≠ some 0)
    (hL3 : hrn.length < 65536) (hN3 : hrn.getLast? ≠ some 0)
    (hL4 : r0.length < 65536) (hN4 : r0.getLast? ≠ some 0)
    (hL5 : r1.length < 65536) (hN5 : r1.getLast? ≠ some 0)
    (hL6 : r2.length < 65536) (hN6 : r2.getLast? ≠ some 0)
    (hM1 : c0.length < 65536) (hQ1 : c0.getLast? ≠ some 0)
    (hM2 : c1.length < 65536) (hQ2 : c1.getLast? ≠ some 0)
    (hM3 : c2.length < 65536) (hQ3 : c2.getLast? ≠ some 0)
    (hid : stbIdentBytes ident ≠ ascii ("STB0"))
    (hW : W = encFixedString ident 4 ++
      (encU32 (38 + (h0n.length + (h1n.length + (hrn.length +
        (r0.length + (r1.length + r2.length)))))) ++
      (encU32 4 ++ (encU32 2 ++ (encU32 rh ++ (encU16 hrh ++
      (encU16 h0w ++ (encU16 h1w ++
      (encStringU16 h0n ++ (encStringU16 h1n ++ (encStringU16 hrn ++
      (encStringU16 r0 ++ (encStringU16 r1 ++ (encStringU16 r2 ++
      (encStringU16 c0 ++ (encStringU16 c1 ++ encStringU16 c2)))))))))))))))) :
    stbRead W = .ok
      { identifier := stbIdentBytes ident
        header_row_height := hrh % 256 + 256 * (hrh / 256 % 256)
        header_row_name := hrn
        headers := [⟨h0n, h0w % 256 + 256 * (h0w / 256 % 256)⟩,
          ⟨h1n, h1w % 256 + 256 * (h1w / 256 % 256)⟩]
        data := [[r0, c0], [r1, c1], [r2, c2]]
        row_height := (rh % 256 + 256 * (rh / 256 % 256) +
          65536 * (rh / 65536 % 256) + 16777216 * (rh / 16777216 % 256)) %
          65536 } := by
  have htake : W.take 4 = encFixedString ident 4 := by
    rw [hW]
    exact List.take_left' (encFixedString_length ident 4)
  have hid0 : rString 4 ⟨W, 0⟩ = .ok (stbIdentBytes ident, ⟨W, 4⟩) := by
    simp only [rString, List.drop_zero, htake, encFixedString_length,
      stbIdentBytes, Nat.zero_add]
  have hd0 : W.drop 0 = W := by rw [List.drop_zero]
  have hd0W := hd0.trans hW
  have hd1 := drop_shift' W 0 4 _ _ hd0W
    (by simp only [encFixedString_length] <;> omega)
  have hd2 := drop_shift' W 4 8 _ _ hd1 (by simp only [encU32_length] <;> omega)
  have hd3 := drop_shift' W 8 12 _ _ hd2 (by simp only [encU32_length] <;> omega)
  have hd4 := drop_shift' W 12 16 _ _ hd3 (by simp only [encU32_length] <;> omega)
  have hd5 := drop_shift' W 16 20 _ _ hd4 (by simp only [encU32_length] <;> omega)
  have hd6 := drop_shift' W 20 22 _ _ hd5 (by simp only [encU16_length] <;> omega)
  have hd7 := drop_shift' W 22 24 _ _ hd6 (by simp only [encU16_length] <;> omega)
  have hd8 := drop_shift' W 24 26 _ _ hd7 (by simp only [encU16_length] <;> omega)
  have hd9 := drop_shift' W 26 (28 + h0n.length) _ _ hd8
    (by simp only [encStringU16_length] <;> omega)
  have hd10 := drop_shift' W (28 + h0n.length)
    (28 + h0n.length + 2 + h1n.length) _ _ hd9
    (by simp only [encStringU16_length] <;> omega)
  have hd11 := drop_shift' W (28 + h0n.length + 2 + h1n.length)
    (28 + h0n.length + 2 + h1n.length + 2 + hrn.length) _ _ hd10
    (by simp only [encStringU16_length] <;> omega)
  have hd12 := drop_shift' W (28 + h0n.length + 2 + h1n.length + 2 + hrn.length)
    (28 + h0n.length + 2 + h1n.length + 2 + hrn.length + 2 + r0.length) _ _ hd11
    (by simp only [encStringU16_length] <;> omega)
  have hd13 := drop_shift' W
    (28 + h0n.length + 2 + h1n.length + 2 + hrn.length + 2 + r0.length)
    (28 + h0n.length + 2 + h1n.length + 2 + hrn.length + 2 + r0.length +
      2 + r1.length) _ _ hd12
    (by simp only [encStringU16_length] <;> omega)
  have hdC0 := drop_shift' W
    (28 + h0n.length + 2 + h1n.length + 2 + hrn.length + 2 + r0.length +
      2 + r1.length)
    (38 + (h0n.length + (h1n.length + (hrn.length +
      (r0.length + (r1.length + r2.length)))))) _ _ hd13
    (by simp only [encStringU16_length] <;> omega)
  have hdC1 := drop_shift' W
    (38 + (h0n.length + (h1n.length + (hrn.length +
      (r0.length + (r1.length + r2.length))))))
    (38 + (h0n.length + (h1n.length + (hrn.length +
      (r0.length + (r1.length + r2.length))))) + 2 + c0.length) _ _ hdC0
    (by simp only [encStringU16_length] <;> omega)
  have hdC2 := drop_shift' W
    (38 + (h0n.length + (h1n.length + (hrn.length +
      (r0.length + (r1.length + r2.length))))) + 2 + c0.length)
    (38 + (h0n.length + (h1n.length + (hrn.length +
      (r0.length + (r1.length + r2.length))))) + 2 + c0.length +
      2 + c1.length) _ _ hdC1
    (by simp only [encStringU16_length] <;> omega)
  have hoff := rU32_enc W 4 (38 + (h0n.length + (h1n.length + (hrn.length +
    (r0.length + (r1.length + r2.length)))))) _ (by omega) hd1
  simp only [Nat.reduceAdd] at hoff
  have hrows := rU32_enc W 8 4 _ (by omega) hd2
  simp only [Nat.reduceAdd] at hrows
  have hcols := rU32_enc W 12 2 _ (by omega) hd3
  simp only [Nat.reduceAdd] at hcols
  have hrh32 := rU32_drop W 16 (rh % 256) (rh / 256 % 256) (rh / 65536 % 256)
    (rh / 16777216 % 256) _ (by simpa [encU32] using hd4)
  simp only [Nat.reduceAdd] at hrh32
  have hhrh := rU16_drop W 20 (hrh % 256) (hrh / 256 % 256) _
    (by simpa [encU16] using hd5)
  simp only [Nat.reduceAdd] at hhrh
  have hh0w := rU16_drop W 22 (h0w % 256) (h0w / 256 % 256) _
    (by simpa [encU16] using hd6)
  simp only [Nat.reduceAdd] at hh0w
  have hh1w := rU16_drop W 24 (h1w % 256) (h1w / 256 % 256) _
    (by simpa [encU16] using hd7)
  simp only [Nat.reduceAdd] at hh1w
  have hhcn := rStringU16_enc W 26 h0n _ hL1 hN1 hd8
  simp only [Nat.reduceAdd] at hhcn
  have hh1n := rStringU16_enc W (28 + h0n.length) h1n _ hL2 hN2 hd9
  have hhrn := rStringU16_enc W (28 + h0n.length + 2 + h1n.length) hrn _
    hL3 hN3 hd10
  have hr0 := rStringU16_enc W
    (28 + h0n.length + 2 + h1n.length + 2 + hrn.length) r0 _ hL4 hN4 hd11
  have hr1 := rStringU16_enc W
    (28 + h0n.length + 2 + h1n.length + 2 + hrn.length + 2 + r0.length) r1 _
    hL5 hN5 hd12
  have hr2 := rStringU16_enc W
    (28 + h0n.length + 2 + h1n.length + 2 + hrn.length + 2 + r0.length +
      2 + r1.length) r2 _ hL6 hN6 hd13
  have hc0 := rStringU16_enc W
    (38 + (h0n.length + (h1n.length + (hrn.length +
      (r0.length + (r1.length + r2.length)))))) c0 _ hM1 hQ1 hdC0
  have hc1 := rStringU16_enc W
    (38 + (h0n.length + (h1n.length + (hrn.length +
      (r0.length + (r1.length + r2.length))))) + 2 + c0.length) c1 _
    hM2 hQ2 hdC1
  have hdC2nil := hdC2.trans (List.append_nil (encStringU16 c2)).symm
  have hc2 := rStringU16_enc W
    (38 + (h0n.length + (h1n.length + (hrn.length +
      (r0.length + (r1.length + r2.length))))) + 2 + c0.length +
      2 + c1.length) c2 _ hM3 hQ3 hdC2nil
  have hloopW : rLoop 1 rU16 ⟨W, 24⟩ =
      .ok ([h1w % 256 + 256 * (h1w / 256 % 256)], ⟨W, 26⟩) := by
    simp only [rLoop, hh1w, bind, Except.bind, pure, Except.pure]
  have hloopN : rLoop 1 rStringU16 ⟨W, 28 + h0n.length⟩ =
      .ok ([h1n], ⟨W, 28 + h0n.length + 2 + h1n.length⟩) := by
    simp only [rLoop, hh1n, bind, Except.bind, pure, Except.pure]
  have hloopR : rLoop 3 rStringU16
      ⟨W, 28 + h0n.length + 2 + h1n.length + 2 + hrn.length⟩ =
      .ok ([r0, r1, r2],
        ⟨W, 28 + h0n.length + 2 + h1n.length + 2 + hrn.length + 2 + r0.length +
          2 + r1.length + 2 + r2.length⟩) := by
    simp only [rLoop, hr0, hr1, hr2, bind, Except.bind, pure, Except.pure]
  have hloopC : rLoop 3 (stbReadCellRow 1)
      ⟨W, 38 + (h0n.length + (h1n.length + (hrn.length +
        (r0.length + (r1.length + r2.length)))))⟩ =
      .ok ([[c0], [c1], [c2]],
        ⟨W, 38 + (h0n.length + (h1n.length + (hrn.length +
          (r0.length + (r1.length + r2.length))))) + 2 + c0.length +
          2 + c1.length + 2 + c2.length⟩) := by
    simp only [stbReadCellRow, rLoop, hc0, hc1, hc2, bind, Except.bind, pure,
      Except.pure]
  simp only [stbRead, bind, Except.bind, pure, Except.pure, hid0, hoff, hrows,
    hcols, hrh32, Nat.reduceSub]
  rw [if_neg hid]
  simp only [bind, Except.bind, pure, Except.pure, hhrh, hh0w, hloopW, hhcn,
    hloopN, hhrn, hloopR, rSeekStart, hloopC, List.zip_cons_cons,
    List.zip_nil_right, List.map_cons, List.map_nil]

/-- C5 — corrected.  Writing a 3-row, 2-column table (2 headers) and reading
the bytes back yields a table with `cols() = 2`, `rows() = 3`, the exact
original data grid — including the row-name column 0 stored in the region
before the patched offset, and the bulk cells at the patched offset — and
`get(r, c)` agreeing with the original table everywhere, provided the
header names, the header row name, the row names and the cells are each
shorter than 2^16 bytes and do not end in a 0x00 byte, and the identifier
field does not read back as the legacy magic `STB0` (the restrictions the
original claim lacks). -/
theorem c5_stb_two_pass (ident hrn h0n h1n r0 c0 r1 c1 r2 c2 : Str)
    (h0w h1w hrh rh : Nat)
    (hL1 : h0n.length < 65536) (hN1 : h0n.getLast? ≠ some 0)
    (hL2 : h1n.length < 65536) (hN2 : h1n.getLast? ≠ some 0)
    (hL3 : hrn.length < 65536) (hN3 : hrn.getLast? ≠ some 0)
    (hL4 : r0.length < 65536) (hN4 : r0.getLast? ≠ some 0)
    (hL5 : r1.length < 65536) (hN5 : r1.getLast? ≠ some 0)
    (hL6 : r2.length < 65536) (hN6 : r2.getLast? ≠ some 0)
    (hM1 : c0.length < 65536) (hQ1 : c0.getLast? ≠ some 0)
    (hM2 : c1.length < 65536) (hQ2 : c1.getLast? ≠ some 0)
    (hM3 : c2.length < 65536) (hQ3 : c2.getLast? ≠ some 0)
    (hid : stbIdentBytes ident ≠ ascii ("STB0")) :
    ∃ bytes t2,
      stbWrite ⟨ident, hrh, hrn, [⟨h0n, h0w⟩, ⟨h1n, h1w⟩],
        [[r0, c0], [r1, c1], [r2, c2]], rh⟩ = .ok bytes ∧
      stbRead bytes = .ok t2 ∧
      t2.cols = 2 ∧ t2.rows = 3 ∧
      t2.data = [[r0, c0], [r1, c1], [r2, c2]] ∧
      ∀ row col, t2.get row col =
        DataTable.get ⟨ident, hrh, hrn, [⟨h0n, h0w⟩, ⟨h1n, h1w⟩],
          [[r0, c0], [r1, c1], [r2, c2]], rh⟩ row col := by
  refine ⟨_, _,
    stbWrite_3x2 ident hrn h0n h1n r0 c0 r1 c1 r2 c2 h0w h1w hrh rh,
    stbRead_3x2 _ ident hrn h0n h1n r0 c0 r1 c1 r2 c2 h0w h1w hrh rh
      hL1 hN1 hL2 hN2 hL3 hN3 hL4 hN4 hL5 hN5 hL6 hN6 hM1 hQ1 hM2 hQ2 hM3 hQ3
      hid rfl,
    rfl, rfl, rfl, ?_⟩
  intro row col
  exact DataTable.get_congr_data _ _ rfl row col

/-- Witness for `c5_stb_two_pass` at a concrete 3-by-2 table. -/
theorem c5_stb_two_pass_witness :
    (ascii ("h0")).getLast? ≠ some 0 ∧
    stbIdentBytes (ascii ("STB1")) ≠ ascii ("STB0") ∧
    (∃ bytes t2,
      stbWrite ⟨ascii ("STB1"), 100, ascii ("hdr"),
        [⟨ascii ("h0"), 10⟩, ⟨ascii ("h1"), 20⟩],
        [[ascii ("r0"), ascii ("c0")], [ascii ("r1"), ascii ("c1")],
         [ascii ("r2"), ascii ("c2")]], 40⟩ = .ok bytes ∧
      stbRead bytes = .ok t2 ∧
      t2.cols = 2 ∧ t2.rows = 3 ∧
      t2.data = [[ascii ("r0"), ascii ("c0")], [ascii ("r1"), ascii ("c1")],
        [ascii ("r2"), ascii ("c2")]] ∧
      ∀ row col, t2.get row col =
        DataTable.get ⟨ascii ("STB1"), 100, ascii ("hdr"),
          [⟨ascii ("h0"), 10⟩, ⟨ascii ("h1"), 20⟩],
          [[ascii ("r0"), ascii ("c0")], [ascii ("r1"), ascii ("c1")],
           [ascii ("r2"), ascii ("c2")]], 40⟩ row col) :=
  ⟨by decide, by decide,
    c5_stb_two_pass (ascii ("STB1")) (ascii ("hdr")) (ascii ("h0"))
      (ascii ("h1")) (ascii ("r0")) (ascii ("c0")) (ascii ("r1"))
      (ascii ("c1")) (ascii ("r2")) (ascii ("c2")) 10 20 100 40
      (by decide) (by decide) (by decide) (by decide) (by decide) (by decide)
      (by decide) (by decide) (by decide) (by decide) (by decide) (by decide)
      (by decide) (by decide) (by decide) (by decide) (by decide) (by decide)
      (by decide)⟩

/-- C5 counterexample: over *every* 3-by-2 table the claim fails — a cell
ending in a 0x00 byte loses that byte through the write/read cycle, so
`get(0, 1)` differs from the original cell text. -/
theorem c5_counterexample :
    ((stbWrite tNulCell).bind stbRead).bind (fun t2 => t2.get 0 1) =
      .ok [65] ∧
    tNulCell.get 0 1 = .ok [65, 0] ∧ ([65] : Str) ≠ [65, 0] := by
  exact ⟨by decide, by decide, by decide⟩

end RoseLib
